import Mathlib

/-!
MultiSens trial-control state machine (ArduFSM)

A shallow embedding of the state hooks of `MultiSens/States.cpp` and
`MultiSens/States.h` and of the standard states of `Test/ArduFSM.cpp`, followed by
theorems about them.

Conventions of the embedding.

* The process-wide variables of `States.cpp` (`param_values`, `results_values`,
  `next_state`, ...) are the fields of `Globals`; every hook takes the instance it
  is called on and the globals, and returns both.
* What a hook reads from the outside world during one call (`millis()`,
  `analogRead(LICK_DETECTOR_PIN)`, `random(0, 10000)`) is passed in as `Inputs`.
* What a hook does to the outside world (`digitalWrite`, `delay`, `Serial.print`,
  calls into the device objects) is appended to `Globals.effects`.
* Integer widths are those of the AVR boards the sketch is written for:
  `int` and `unsigned int` have 16 bits, `long` and `unsigned long` have 32 bits.
  Values are kept in `Nat` and `Int`; a conversion or an increment that can wrap is
  written with an explicit remainder.
-/

namespace MultiSens

/-! ## Macros of `States.h` -/

abbrev N_TRIAL_PARAMS : Nat := 13
def tpidx_STPRIDX : Fin N_TRIAL_PARAMS := 0
def tpidx_SPKRIDX : Fin N_TRIAL_PARAMS := 1
def tpidx_STIM_DUR : Fin N_TRIAL_PARAMS := 2
def tpidx_REW : Fin N_TRIAL_PARAMS := 3
def tpidx_REW_DUR : Fin N_TRIAL_PARAMS := 4
def tpidx_INTER_REWARD_INTERVAL : Fin N_TRIAL_PARAMS := 5
def tpidx_ERROR_TIMEOUT : Fin N_TRIAL_PARAMS := 6
def tpidx_ITI : Fin N_TRIAL_PARAMS := 7
def tpidx_RESP_WIN_DUR : Fin N_TRIAL_PARAMS := 8
def tpidx_MRT : Fin N_TRIAL_PARAMS := 9
def tpidx_TERMINATE_ON_ERR : Fin N_TRIAL_PARAMS := 10
def tpidx_INTERSTIM_LATENCY : Fin N_TRIAL_PARAMS := 11
def tpidx_VOLUME : Fin N_TRIAL_PARAMS := 12

abbrev N_TRIAL_RESULTS : Nat := 2
def tridx_RESPONSE : Fin N_TRIAL_RESULTS := 0
def tridx_OUTCOME : Fin N_TRIAL_RESULTS := 1

def GO : Int := 1
def NOGO : Int := 2

def OUTCOME_HIT : Int := 1
def OUTCOME_FA : Int := 2
def OUTCOME_MISS : Int := 3
def OUTCOME_CR : Int := 4

abbrev NUM_DEVICES : Nat := 2

def SOLENOID_PIN : Int := 4
def TIMER_PIN : Int := 11

/-- The two pin levels of the Arduino core. -/
inductive PinLevel where
  | HIGH
  | LOW
  deriving DecidableEq, Repr

/-- The enum `STATE_TYPE` of `States.h`. -/
inductive STATE_TYPE where
  | WAIT_TO_START_TRIAL
  | TRIAL_START
  | STIM_PERIOD
  | REWARD
  | RESPONSE_WINDOW
  | ERROR
  | INTER_TRIAL_INTERVAL
  | POST_REWARD_PAUSE
  deriving DecidableEq, Repr

/-! ## Machine integers -/

/-- Number of values of an `unsigned int` (16 bits). -/
def UINT_MODULUS : Nat := 65536

/-- Number of values of an `unsigned long` (32 bits). -/
def ULONG_MODULUS : Nat := 4294967296

/-- Conversion of a `long` to `unsigned long`. -/
def to_unsigned_long (x : Int) : Nat := (x % (ULONG_MODULUS : Int)).toNat

/-- Narrowing of a `long` to `int` (16-bit two's complement). -/
def to_int (x : Int) : Int := (x + 32768) % 65536 - 32768

/-! ## The outside world -/

/-- What one call of a hook reads from the board. -/
structure Inputs where
  /-- The value `millis()` returns. -/
  millis : Nat
  /-- The value `analogRead(LICK_DETECTOR_PIN)` returns. -/
  analogRead : Int
  /-- The value `random(0, 10000)` returns. -/
  random : Int

/-- The argument of a `Serial.print` or `Serial.println` call. -/
inductive Printed where
  /-- An integer, printed in decimal. -/
  | number (n : Int)
  /-- A string literal. -/
  | text (s : String)
  /-- An entry of a `char*` table; `none` is the null pointer. -/
  | cstring (p : Option String)
  deriving DecidableEq, Repr

/-- What a hook does to the board. -/
inductive Effect where
  /-- The call `digitalWrite(pin, level)`. -/
  | digitalWrite (pin : Int) (level : PinLevel)
  /-- The call `devPtrs[i] -> loop(fcn)`. -/
  | deviceLoop (i : Fin NUM_DEVICES) (fcn : Int)
  /-- The call `devPtrs[i] -> s_finish()`. -/
  | deviceFinish (i : Fin NUM_DEVICES)
  /-- The call `Serial.print(x)`. -/
  | serialPrint (x : Printed)
  /-- The call `Serial.println(x)`, which ends the line. -/
  | serialPrintln (x : Printed)
  /-- The call `delay(ms)`. -/
  | delay (ms : Nat)
  deriving DecidableEq, Repr

/-! ## Globals of `States.cpp` -/

def lickThresh : Int := 900

def devIndices : Fin NUM_DEVICES → Fin N_TRIAL_PARAMS := ![tpidx_STPRIDX, tpidx_SPKRIDX]

/-- The table `param_abbrevs`: eleven names are written out for its thirteen slots,
the last two are null pointers. No code under the sources writes to it. -/
def param_abbrevs : Fin N_TRIAL_PARAMS → Option String :=
  ![some "STPRIDX", some "SPKRIDX", some "STIMDUR", some "REW", some "REW_DUR",
    some "IRI", some "TO", some "ITI", some "RWIN", some "MRT",
    some "TOE", none, none]

/-- The table `results_abbrevs`. -/
def results_abbrevs : Fin N_TRIAL_RESULTS → Option String := ![some "RESP", some "OUTC"]

/-- The process-wide variables the hooks read and write. -/
structure Globals where
  param_values : Fin N_TRIAL_PARAMS → Int
  param_report_ET : Fin N_TRIAL_PARAMS → Bool
  results_values : Fin N_TRIAL_RESULTS → Int
  default_results_values : Fin N_TRIAL_RESULTS → Int
  next_state : STATE_TYPE
  /-- Board effects issued so far, oldest first. -/
  effects : List Effect

/-- The initialisers of `States.cpp`: eleven values are written out for the thirteen
slots of each parameter table, the remaining two are zero-initialised. `next_state`
is defined in the sketch; the value here is the state the machine starts in. -/
def Globals.init : Globals where
  param_values := ![0, 0, 2000, 0, 50, 500, 6000, 3000, 45000, 1, 1, 0, 0]
  param_report_ET := ![true, true, true, true, false, false, false, false, false, false,
    false, false, false]
  results_values := ![0, 0]
  default_results_values := ![0, 0]
  next_state := STATE_TYPE.WAIT_TO_START_TRIAL
  effects := []

/-! ## State objects -/

/-- Modelled from the spec: the base class `TimedState` (the library header
`TimedState.h` is not among the sources). Every timed state owns a duration and a
timer; `flag_stop` is the early-stop mark and `time_of_last_call` the time latched
at the last dispatch. Only the members that `States.cpp` reads or writes appear. -/
structure TimedState where
  time_of_last_call : Nat
  timer : Nat
  duration : Nat
  flag_stop : Bool

/-- The class `StimPeriod` of `States.h`. -/
structure StimPeriod extends TimedState where
  _timerPin : Int
  licked : Bool
  trialNumber : Int
  devFcns : Fin NUM_DEVICES → Int

/-- The class `StateResponseWindow` of `States.h`; `StateFakeResponseWindow` has the
same members. -/
structure StateResponseWindow extends TimedState where
  my_licking : Bool
  my_rewards_this_trial : Nat

/-- The class `StateErrorTimeout` of `States.h`. -/
structure StateErrorTimeout extends TimedState

/-- The class `StateInterTrialInterval` of `States.h`. -/
structure StateInterTrialInterval extends TimedState

/-- The class `StatePostRewardPause` of `States.h`. -/
structure StatePostRewardPause extends TimedState

/-- The constructor `TimedState(d)`; the other members start at zero. -/
def TimedState.new (d : Nat) : TimedState :=
  { time_of_last_call := 0, timer := 0, duration := d, flag_stop := false }

/-- The constructor `StimPeriod(d, timerPin)`. The members it does not name are
zero, the object being a static one. -/
def StimPeriod.new (d : Nat) (timerPin : Int) : StimPeriod :=
  { toTimedState := TimedState.new d
    _timerPin := timerPin
    licked := false
    trialNumber := 1
    devFcns := fun _ => 0 }

/-- The constructor `StateResponseWindow(d)`, with the member initialisers of the
class. -/
def StateResponseWindow.new (d : Nat) : StateResponseWindow :=
  { toTimedState := TimedState.new d
    my_licking := false
    my_rewards_this_trial := 0 }

/-- The function `checkLicks`. -/
def checkLicks (env : Inputs) : Bool :=
  let aIn := env.analogRead
  if aIn > lickThresh then true else false

/-! ### StimPeriod -/

/-- The hook `StimPeriod::s_setup`. -/
def StimPeriod.s_setup (self : StimPeriod) (g : Globals) : StimPeriod × Globals :=
  ({ self with
      duration := to_unsigned_long (g.param_values tpidx_REW_DUR)
      licked := false
      devFcns := fun i => to_int (g.param_values (devIndices i)) }, g)

/-- The hook `StimPeriod::loop`. The comparison `(timer - time) < param_values[..]`
is made on `unsigned long`. -/
def StimPeriod.loop (env : Inputs) (self : StimPeriod) (g : Globals) : StimPeriod × Globals :=
  let time := env.millis
  let g1 := { g with
    effects := g.effects ++ (List.finRange NUM_DEVICES).map
      (fun i => Effect.deviceLoop i (self.devFcns i)) }
  if g1.param_values tpidx_REW = 1 ∧
      (((self.timer : Int) - (time : Int)) % (ULONG_MODULUS : Int)).toNat
        < to_unsigned_long (g1.param_values tpidx_REW_DUR) then
    (self, { g1 with effects := g1.effects ++ [Effect.digitalWrite SOLENOID_PIN PinLevel.HIGH] })
  else
    (self, g1)

/-- The hook `StimPeriod::s_finish`. -/
def StimPeriod.s_finish (self : StimPeriod) (g : Globals) : StimPeriod × Globals :=
  let g1 := { g with
    effects := g.effects ++ (List.finRange NUM_DEVICES).map (fun i => Effect.deviceFinish i) }
  let g2 := { g1 with effects := g1.effects ++ [Effect.digitalWrite SOLENOID_PIN PinLevel.LOW] }
  if self.licked = true then
    (self, { g2 with next_state := STATE_TYPE.ERROR })
  else
    (self, { g2 with next_state := STATE_TYPE.RESPONSE_WINDOW })

/-- One Stimulus Period as the dispatcher drives it: `s_setup`, then one call of
`loop` for each element of `polls` in order, then `s_finish`. -/
def StimPeriod.period (polls : List Inputs) (self : StimPeriod) (g : Globals) :
    StimPeriod × Globals :=
  let entered := StimPeriod.s_setup self g
  let polled := polls.foldl (fun st env => StimPeriod.loop env st.1 st.2) entered
  StimPeriod.s_finish polled.1 polled.2

/-! ### StateResponseWindow -/

/-- The member `StateResponseWindow::update`. -/
def StateResponseWindow.update (env : Inputs) (self : StateResponseWindow) :
    StateResponseWindow :=
  { self with my_licking := checkLicks env }

/-- The hook `StateResponseWindow::s_setup`. -/
def StateResponseWindow.s_setup (self : StateResponseWindow) (g : Globals) :
    StateResponseWindow × Globals :=
  ({ self with duration := to_unsigned_long (g.param_values tpidx_RESP_WIN_DUR) }, g)

/-- The member `StateResponseWindow::set_licking_variables`; the result is the value
left in `licking`. -/
def StateResponseWindow.set_licking_variables (env : Inputs) : Bool :=
  let aIn := env.analogRead
  if aIn > lickThresh then true else false

/-- The member `StateFakeResponseWindow::set_licking_variables`. -/
def StateFakeResponseWindow.set_licking_variables (env : Inputs) : Bool :=
  decide (env.random < 3)

/-- The body of `StateResponseWindow::loop`. The virtual member
`set_licking_variables` the body calls first is the argument `hook`; the macro
`__TRIAL_SPEAK_NO` of `chat.h`, which is not among the sources, is the argument
`TRIAL_SPEAK_NO`. The comparison of `my_rewards_this_trial` (`unsigned int`) with a
`long` is made on `long`. The last branch of the `if (!licking) .. else if (licking)
.. else` chain cannot be taken and is left out. -/
def StateResponseWindow.loop_with (hook : Inputs → Bool) (TRIAL_SPEAK_NO : Int)
    (env : Inputs) (self : StateResponseWindow) (g : Globals) :
    StateResponseWindow × Globals :=
  let licking := hook env
  if (self.my_rewards_this_trial : Int) ≥ g.param_values tpidx_MRT then
    ({ self with flag_stop := true }, { g with next_state := STATE_TYPE.INTER_TRIAL_INTERVAL })
  else if licking = false then
    (self, g)
  else
    let current_response := GO
    let g1 :=
      if g.results_values tridx_RESPONSE = 0 then
        { g with results_values :=
            Function.update g.results_values tridx_RESPONSE current_response }
      else g
    if current_response = GO ∧ g1.param_values tpidx_REW = GO then
      ({ self with
          my_rewards_this_trial := (self.my_rewards_this_trial + 1) % UINT_MODULUS },
       { g1 with
          next_state := STATE_TYPE.REWARD
          results_values := Function.update g1.results_values tridx_OUTCOME OUTCOME_HIT })
    else if g1.param_values tpidx_TERMINATE_ON_ERR = TRIAL_SPEAK_NO then
      (self, g1)
    else
      (self, { g1 with
          results_values := Function.update g1.results_values tridx_OUTCOME OUTCOME_FA
          next_state := STATE_TYPE.ERROR })

/-- The hook `StateResponseWindow::loop` on a `StateResponseWindow` object. -/
def StateResponseWindow.loop (TRIAL_SPEAK_NO : Int) (env : Inputs)
    (self : StateResponseWindow) (g : Globals) : StateResponseWindow × Globals :=
  StateResponseWindow.loop_with StateResponseWindow.set_licking_variables
    TRIAL_SPEAK_NO env self g

/-- The hook `StateResponseWindow::loop` on a `StateFakeResponseWindow` object. -/
def StateFakeResponseWindow.loop (TRIAL_SPEAK_NO : Int) (env : Inputs)
    (self : StateResponseWindow) (g : Globals) : StateResponseWindow × Globals :=
  StateResponseWindow.loop_with StateFakeResponseWindow.set_licking_variables
    TRIAL_SPEAK_NO env self g

/-- The hook `StateResponseWindow::s_finish`. The assignment to `next_state` stands
inside the braces of the `if`. -/
def StateResponseWindow.s_finish (self : StateResponseWindow) (g : Globals) :
    StateResponseWindow × Globals :=
  if g.results_values tridx_RESPONSE = 0 then
    let g1 := { g with results_values := Function.update g.results_values tridx_RESPONSE NOGO }
    let g2 :=
      if g1.param_values tpidx_REW = NOGO then
        { g1 with results_values := Function.update g1.results_values tridx_OUTCOME OUTCOME_CR }
      else
        { g1 with
            results_values := Function.update g1.results_values tridx_OUTCOME OUTCOME_MISS }
    (self, { g2 with next_state := STATE_TYPE.INTER_TRIAL_INTERVAL })
  else
    (self, g)

/-- The Response Window polled once for each element of `envs`, in order. -/
def StateResponseWindow.polls (TRIAL_SPEAK_NO : Int) (envs : List Inputs)
    (self : StateResponseWindow) (g : Globals) : StateResponseWindow × Globals :=
  envs.foldl (fun st env => StateResponseWindow.loop TRIAL_SPEAK_NO env st.1 st.2) (self, g)

/-! ### Inter-trial interval -/

/-- The hook `StateInterTrialInterval::s_setup`. -/
def StateInterTrialInterval.s_setup (self : StateInterTrialInterval) (g : Globals) :
    StateInterTrialInterval × Globals :=
  let self1 : StateInterTrialInterval :=
    { self with duration := to_unsigned_long (g.param_values tpidx_ITI) }
  (self1,
    (List.finRange N_TRIAL_RESULTS).foldl
      (fun acc i =>
        { acc with
          effects := acc.effects ++
            [Effect.serialPrint (Printed.number self1.time_of_last_call),
             Effect.serialPrint (Printed.text " TRLR "),
             Effect.serialPrint (Printed.cstring (results_abbrevs i)),
             Effect.serialPrint (Printed.text " "),
             Effect.serialPrintln (Printed.number (acc.results_values i))] })
      g)

/-- The hook `StateInterTrialInterval::s_finish`. -/
def StateInterTrialInterval.s_finish (self : StateInterTrialInterval) (g : Globals) :
    StateInterTrialInterval × Globals :=
  (self, { g with next_state := STATE_TYPE.WAIT_TO_START_TRIAL })

/-! ### Post-reward pause -/

/-- Modelled from the spec: the setup hook of `StatePostRewardPause`. The class
declares `s_finish` only, so the hook run at entry is the one inherited from
`TimedState`, whose header is not among the sources; the spec has the concrete
states supply the setup behaviour, and the inherited hook does nothing. -/
def StatePostRewardPause.s_setup (self : StatePostRewardPause) (g : Globals) :
    StatePostRewardPause × Globals :=
  (self, g)

/-- The hook `StatePostRewardPause::s_finish`. -/
def StatePostRewardPause.s_finish (self : StatePostRewardPause) (g : Globals) :
    StatePostRewardPause × Globals :=
  (self, { g with next_state := STATE_TYPE.RESPONSE_WINDOW })

/-! ### Error timeout -/

/-- The hook `StateErrorTimeout::s_finish`. -/
def StateErrorTimeout.s_finish (self : StateErrorTimeout) (g : Globals) :
    StateErrorTimeout × Globals :=
  (self, { g with next_state := STATE_TYPE.INTER_TRIAL_INTERVAL })

/-- The hook `StateErrorTimeout::s_setup`. -/
def StateErrorTimeout.s_setup (self : StateErrorTimeout) (g : Globals) :
    StateErrorTimeout × Globals :=
  ({ self with duration := to_unsigned_long (g.param_values tpidx_ERROR_TIMEOUT) }, g)

/-! ### Non-class states -/

/-- The function `state_reward`. Its reference argument is the global `next_state`;
the first component of the result is the value returned. -/
def state_reward (g : Globals) : Int × Globals :=
  let g1 := { g with
    effects := g.effects ++ [Effect.digitalWrite SOLENOID_PIN PinLevel.HIGH] }
  let g2 := { g1 with
    effects := g1.effects ++ [Effect.delay (to_unsigned_long (g1.param_values tpidx_REW_DUR))] }
  let g3 := { g2 with
    effects := g2.effects ++ [Effect.digitalWrite SOLENOID_PIN PinLevel.LOW] }
  (0, { g3 with next_state := STATE_TYPE.POST_REWARD_PAUSE })

/-! ### The state objects -/

/-- The array `getStates` returns. -/
structure States where
  stim_period : StimPeriod
  srw : StateResponseWindow
  sfrw : StateResponseWindow
  state_inter_trial_interval : StateInterTrialInterval
  state_error_timeout : StateErrorTimeout
  state_post_reward_pause : StatePostRewardPause

/-- The function `getStates`: the six static objects, built from the parameter values
of the moment of the call. The source gives the `StimPeriod` constructor its
duration only; the timer pin is the argument `timerPin`. -/
def getStates (timerPin : Int) (g : Globals) : States :=
  { stim_period := StimPeriod.new (to_unsigned_long (g.param_values tpidx_STIM_DUR)) timerPin
    srw := StateResponseWindow.new (to_unsigned_long (g.param_values tpidx_RESP_WIN_DUR))
    sfrw := StateResponseWindow.new (to_unsigned_long (g.param_values tpidx_RESP_WIN_DUR))
    state_inter_trial_interval :=
      { toTimedState := TimedState.new (to_unsigned_long (g.param_values tpidx_ITI)) }
    state_error_timeout :=
      { toTimedState := TimedState.new (to_unsigned_long (g.param_values tpidx_ERROR_TIMEOUT)) }
    state_post_reward_pause :=
      { toTimedState :=
          TimedState.new (to_unsigned_long (g.param_values tpidx_INTER_REWARD_INTERVAL)) } }

/-! ## Standard states of `ArduFSM.cpp` -/

/-- The function `StateTrialStart::run`. The protocol hook `user_trial_start`, which
the sketch defines and which is not among the sources, is the argument
`user_trial_start`. The source function ends without a `return`; the result here is
the globals it leaves. -/
def StateTrialStart.run (user_trial_start : Globals → Globals) (time : Nat) (g : Globals) :
    Globals :=
  let g1 := { g with
    effects := g.effects ++
      [Effect.serialPrint (Printed.number time),
       Effect.serialPrintln (Printed.text " TRL_START")] }
  let g2 := (List.finRange N_TRIAL_PARAMS).foldl
    (fun acc i =>
      if acc.param_report_ET i = true then
        { acc with
          effects := acc.effects ++
            [Effect.serialPrint (Printed.number time),
             Effect.serialPrint (Printed.text " TRLP "),
             Effect.serialPrint (Printed.cstring (param_abbrevs i)),
             Effect.serialPrint (Printed.text " "),
             Effect.serialPrintln (Printed.number (acc.param_values i))] }
      else acc)
    g1
  let g3 := (List.finRange N_TRIAL_RESULTS).foldl
    (fun acc i =>
      { acc with
        results_values := Function.update acc.results_values i (acc.default_results_values i) })
    g2
  user_trial_start g3

/-! ## Reading the effects -/

/-- The effects a call has added, given the effects before and after it. -/
def emitted (before after : List Effect) : List Effect := after.drop before.length

/-- The serial output cut into lines: each line is the list of the items printed up
to and including a `println`; `cur` holds the items of the line being written. -/
def serial_lines_from (cur : List Printed) : List Effect → List (List Printed)
  | [] => if cur.isEmpty then [] else [cur]
  | Effect.serialPrint x :: rest => serial_lines_from (cur ++ [x]) rest
  | Effect.serialPrintln x :: rest => (cur ++ [x]) :: serial_lines_from [] rest
  | Effect.digitalWrite _ _ :: rest => serial_lines_from cur rest
  | Effect.deviceLoop _ _ :: rest => serial_lines_from cur rest
  | Effect.deviceFinish _ :: rest => serial_lines_from cur rest
  | Effect.delay _ :: rest => serial_lines_from cur rest

/-- The lines of a serial output that starts at the beginning of a line. -/
def serial_lines (out : List Effect) : List (List Printed) := serial_lines_from [] out

/-- The line `<time> TRL_START`. -/
def TRL_START_line (time : Nat) : List Printed :=
  [Printed.number time, Printed.text " TRL_START"]

/-- The line `<time> TRLP <abbreviation> <value>` of parameter `i`. -/
def TRLP_line (time : Nat) (g : Globals) (i : Fin N_TRIAL_PARAMS) : List Printed :=
  [Printed.number time, Printed.text " TRLP ", Printed.cstring (param_abbrevs i),
   Printed.text " ", Printed.number (g.param_values i)]

/-- The line `<time> TRLR <abbreviation> <value>` of result `i`. -/
def TRLR_line (time : Nat) (g : Globals) (i : Fin N_TRIAL_RESULTS) : List Printed :=
  [Printed.number time, Printed.text " TRLR ", Printed.cstring (results_abbrevs i),
   Printed.text " ", Printed.number (g.results_values i)]

/-- A trial-start hook that writes no global other than `next_state`. -/
def sets_only_next_state (hook : Globals → Globals) : Prop :=
  ∀ g, hook g = { g with next_state := (hook g).next_state }

/-- A poll during which the lick detector reads 1000, above `lickThresh`. -/
def env_lick : Inputs := { millis := 100, analogRead := 1000, random := 5000 }

/-- A poll during which the lick detector reads 0. -/
def env_quiet : Inputs := { millis := 100, analogRead := 0, random := 5000 }

/-- The globals at their initialisers, except for one parameter. -/
def Globals.with_param (g : Globals) (i : Fin N_TRIAL_PARAMS) (v : Int) : Globals :=
  { g with param_values := Function.update g.param_values i v }

/-- A Response Window object that has counted `n` rewards. -/
def srw_counted (n : Nat) : StateResponseWindow :=
  { StateResponseWindow.new 45000 with my_rewards_this_trial := n }

/-- The globals of a rewarded trial (`REW` = 1, `MRT` = 2) after its first hit:
response GO, outcome HIT, and `next_state` as the Post-Reward Pause leaves it. -/
def globals_after_hit : Globals :=
  { Globals.init with
      param_values := ![0, 0, 2000, 1, 50, 500, 6000, 3000, 45000, 2, 1, 0, 0]
      results_values := ![GO, OUTCOME_HIT]
      next_state := STATE_TYPE.RESPONSE_WINDOW }

/-- The Stimulus Period object as `getStates` builds it from the initial
parameters. -/
def stim_period_init : StimPeriod :=
  StimPeriod.new (to_unsigned_long (Globals.init.param_values tpidx_STIM_DUR)) TIMER_PIN

/-- The globals of an unrewarded trial whose `TOE` parameter holds the value 2 taken
for `__TRIAL_SPEAK_NO` in the witness below. -/
def globals_without_toe : Globals := Globals.init.with_param tpidx_TERMINATE_ON_ERR 2

/-- The result table once a poll that saw a lick has passed the statement
`if (results_values[tridx_RESPONSE] == 0) results_values[tridx_RESPONSE] = current_response;`
of `StateResponseWindow::loop`. -/
def record_response (g : Globals) : Fin N_TRIAL_RESULTS → Int :=
  if g.results_values tridx_RESPONSE = 0 then
    Function.update g.results_values tridx_RESPONSE GO
  else g.results_values

/-- The calls the parameter loop of `StateTrialStart::run` makes for the indices in
the list, given the report flags and the parameter values. -/
def trlp_effects (time : Nat) (flags : Fin N_TRIAL_PARAMS → Bool)
    (values : Fin N_TRIAL_PARAMS → Int) : List (Fin N_TRIAL_PARAMS) → List Effect
  | [] => []
  | i :: rest =>
    (if flags i = true then
      [Effect.serialPrint (Printed.number time),
       Effect.serialPrint (Printed.text " TRLP "),
       Effect.serialPrint (Printed.cstring (param_abbrevs i)),
       Effect.serialPrint (Printed.text " "),
       Effect.serialPrintln (Printed.number (values i))]
    else []) ++ trlp_effects time flags values rest

/-- The calls the result loop of `StateInterTrialInterval::s_setup` makes for the
indices in the list. -/
def trlr_effects (time : Nat) (values : Fin N_TRIAL_RESULTS → Int) :
    List (Fin N_TRIAL_RESULTS) → List Effect
  | [] => []
  | i :: rest =>
    [Effect.serialPrint (Printed.number time),
     Effect.serialPrint (Printed.text " TRLR "),
     Effect.serialPrint (Printed.cstring (results_abbrevs i)),
     Effect.serialPrint (Printed.text " "),
     Effect.serialPrintln (Printed.number (values i))] ++ trlr_effects time values rest

/-- A Response Window object at the end of a trial: one reward counted and
`my_licking` set by `update`. -/
def srw_used : StateResponseWindow :=
  { StateResponseWindow.new 45000 with my_licking := true, my_rewards_this_trial := 1 }

/-- A trial-start hook that sends the machine to the Stimulus Period. -/
def hook_to_stim (g : Globals) : Globals := { g with next_state := STATE_TYPE.STIM_PERIOD }

/-- The globals after the host has set the inter-reward interval to 800. -/
def globals_iri_800 : Globals := Globals.init.with_param tpidx_INTER_REWARD_INTERVAL 800

/-! ## The steps of the end-to-end scenarios -/

/-- Scenario 1, step 1: the globals after a Stimulus Period. -/
def scenario1_stim (polls : List Inputs) (sp : StimPeriod) (g : Globals) : Globals :=
  (StimPeriod.period polls sp g).2

/-- Scenario 1, step 2: a poll of the Response Window after the Stimulus Period. -/
def scenario1_poll (T : Int) (env1 : Inputs) (srw : StateResponseWindow)
    (polls : List Inputs) (sp : StimPeriod) (g : Globals) : StateResponseWindow × Globals :=
  StateResponseWindow.loop T env1 srw (scenario1_stim polls sp g)

/-- Scenario 1, step 3: `state_reward` after that poll. -/
def scenario1_reward (T : Int) (env1 : Inputs) (srw : StateResponseWindow)
    (polls : List Inputs) (sp : StimPeriod) (g : Globals) : Int × Globals :=
  state_reward (scenario1_poll T env1 srw polls sp g).2

/-- Scenario 1, step 4: the finish hook of the Post-Reward Pause after the reward. -/
def scenario1_pause (prp : StatePostRewardPause) (T : Int) (env1 : Inputs)
    (srw : StateResponseWindow) (polls : List Inputs) (sp : StimPeriod) (g : Globals) :
    StatePostRewardPause × Globals :=
  StatePostRewardPause.s_finish prp (scenario1_reward T env1 srw polls sp g).2

/-- Scenario 1, step 5: the next poll of the Response Window, on the object the first
poll left. -/
def scenario1_repoll (env2 : Inputs) (prp : StatePostRewardPause) (T : Int) (env1 : Inputs)
    (srw : StateResponseWindow) (polls : List Inputs) (sp : StimPeriod) (g : Globals) :
    StateResponseWindow × Globals :=
  StateResponseWindow.loop T env2 (scenario1_poll T env1 srw polls sp g).1
    (scenario1_pause prp T env1 srw polls sp g).2

/-- The globals of scenario 1: REW = 1, REW_DUR = 50, RWIN = 45000, MRT = 1, results
at their defaults. -/
def globals_scenario1 : Globals := Globals.init.with_param tpidx_REW 1

/-- The globals of scenario 2: REW = 2, results at their defaults. -/
def globals_scenario2 : Globals := Globals.init.with_param tpidx_REW 2

/-- A poll of the fake Response Window whose draw is 2, with the detector quiet. -/
def env_draw_low : Inputs := { millis := 100, analogRead := 0, random := 2 }

/-- A poll with the same draw 2, at another time and with the detector above
threshold. -/
def env_draw_low_lick : Inputs := { millis := 250, analogRead := 1000, random := 2 }

/-- The standard state objects of `ArduFSM.cpp`, which a returned `State*` can point
to. -/
inductive StandardState where
  | state_trial_start
  | state_wait_to_start_trial
  deriving DecidableEq, Repr

/-- The function `StateWaitToStartTrial::run`. The variable `flag_start_trial`, which
the sketch defines and `ArduFSM.cpp` declares `extern`, is passed in. With the flag set
the result is `some` of the pointer returned, the flag as the call leaves it and the
globals as the call leaves them. With the flag clear the source function, which
returns a `State*`, reaches its closing brace without a `return`: the behaviour of that
call is undefined, nothing it does or returns can be relied on, and the result is
`none`. -/
def StateWaitToStartTrial.run (time : Nat) (flag_start_trial : Bool) (g : Globals) :
    Option (StandardState × Bool × Globals) :=
  if flag_start_trial = true then
    let g1 := { g with
      effects := g.effects ++
        [Effect.serialPrint (Printed.number time),
         Effect.serialPrintln (Printed.text " TRL_RELEASED")] }
    some (StandardState.state_trial_start, false, g1)
  else
    none

/-- The line `<time> TRL_RELEASED`. -/
def TRL_RELEASED_line (time : Nat) : List Printed :=
  [Printed.number time, Printed.text " TRL_RELEASED"]

/-! ## Sequences of calls during a Response Window -/

/-- One call of a sequence made while a trial is in its Response Window: a poll of the
real or of the fake window, the finish hook, or `state_reward`. -/
inductive WindowCall where
  | poll (env : Inputs)
  | fake_poll (env : Inputs)
  | finish
  | reward

/-- The effect of one call of the sequence on the Response Window object and the
globals. -/
def WindowCall.run (T : Int) (c : WindowCall) (st : StateResponseWindow × Globals) :
    StateResponseWindow × Globals :=
  match c with
  | WindowCall.poll env => StateResponseWindow.loop T env st.1 st.2
  | WindowCall.fake_poll env => StateFakeResponseWindow.loop T env st.1 st.2
  | WindowCall.finish => StateResponseWindow.s_finish st.1 st.2
  | WindowCall.reward => (st.1, (state_reward st.2).2)

/-- Whether a call requests the REWARD transition: entered with `next_state` at
RESPONSE_WINDOW, the state being polled, it leaves `next_state` at REWARD. -/
def WindowCall.requests_reward (T : Int) (c : WindowCall)
    (st : StateResponseWindow × Globals) : Bool :=
  decide ((c.run T (st.1, { st.2 with next_state := STATE_TYPE.RESPONSE_WINDOW })).2.next_state
    = STATE_TYPE.REWARD)

/-- The number of REWARD transitions requested along a sequence of calls. -/
def reward_requests (T : Int) : List WindowCall → StateResponseWindow × Globals → Nat
  | [], _ => 0
  | c :: rest, st =>
    (if c.requests_reward T st = true then 1 else 0) + reward_requests T rest (c.run T st)

/-- The globals of a rewarded trial whose `MRT` parameter is 65536, one more than the
largest value of an `unsigned int`. -/
def globals_large_mrt : Globals :=
  (Globals.init.with_param tpidx_REW GO).with_param tpidx_MRT 65536

/-! ## Lemmas on the Response Window hooks -/

theorem tridx_RESPONSE_ne_OUTCOME : tridx_RESPONSE ≠ tridx_OUTCOME := by decide

theorem set_licking_variables_eq_true (env : Inputs) :
    StateResponseWindow.set_licking_variables env = true ↔ lickThresh < env.analogRead := by
  simp [StateResponseWindow.set_licking_variables]

/-- A poll made once the reward limit is reached only marks the early stop. -/
theorem loop_with_limit (hook : Inputs → Bool) (T : Int) (env : Inputs)
    (self : StateResponseWindow) (g : Globals)
    (h : (self.my_rewards_this_trial : Int) ≥ g.param_values tpidx_MRT) :
    StateResponseWindow.loop_with hook T env self g =
      ({ self with flag_stop := true },
       { g with next_state := STATE_TYPE.INTER_TRIAL_INTERVAL }) := by
  simp [StateResponseWindow.loop_with, h]

/-- A poll without a lick, below the reward limit, changes nothing. -/
theorem loop_with_quiet (hook : Inputs → Bool) (T : Int) (env : Inputs)
    (self : StateResponseWindow) (g : Globals)
    (h : (self.my_rewards_this_trial : Int) < g.param_values tpidx_MRT)
    (hl : hook env = false) :
    StateResponseWindow.loop_with hook T env self g = (self, g) := by
  simp [StateResponseWindow.loop_with, not_le.mpr h, hl]

/-- A poll with a lick on a rewarded trial, below the reward limit. -/
theorem loop_with_hit (hook : Inputs → Bool) (T : Int) (env : Inputs)
    (self : StateResponseWindow) (g : Globals)
    (h : (self.my_rewards_this_trial : Int) < g.param_values tpidx_MRT)
    (hl : hook env = true) (hr : g.param_values tpidx_REW = GO) :
    StateResponseWindow.loop_with hook T env self g =
      ({ self with my_rewards_this_trial := (self.my_rewards_this_trial + 1) % UINT_MODULUS },
       { g with
          next_state := STATE_TYPE.REWARD
          results_values := Function.update (record_response g) tridx_OUTCOME OUTCOME_HIT }) := by
  unfold StateResponseWindow.loop_with record_response
  by_cases h0 : g.results_values tridx_RESPONSE = 0 <;>
    simp [not_le.mpr h, hl, hr, h0]

/-- A poll with a lick on an unrewarded trial, below the reward limit, with
terminate-on-error off. -/
theorem loop_with_error_stay (hook : Inputs → Bool) (T : Int) (env : Inputs)
    (self : StateResponseWindow) (g : Globals)
    (h : (self.my_rewards_this_trial : Int) < g.param_values tpidx_MRT)
    (hl : hook env = true) (hr : g.param_values tpidx_REW ≠ GO)
    (ht : g.param_values tpidx_TERMINATE_ON_ERR = T) :
    StateResponseWindow.loop_with hook T env self g =
      (self, { g with results_values := record_response g }) := by
  unfold StateResponseWindow.loop_with record_response
  by_cases h0 : g.results_values tridx_RESPONSE = 0 <;>
    simp [not_le.mpr h, hl, hr, h0, ht]

/-- A poll with a lick on an unrewarded trial, below the reward limit, with
terminate-on-error on. -/
theorem loop_with_error_stop (hook : Inputs → Bool) (T : Int) (env : Inputs)
    (self : StateResponseWindow) (g : Globals)
    (h : (self.my_rewards_this_trial : Int) < g.param_values tpidx_MRT)
    (hl : hook env = true) (hr : g.param_values tpidx_REW ≠ GO)
    (ht : g.param_values tpidx_TERMINATE_ON_ERR ≠ T) :
    StateResponseWindow.loop_with hook T env self g =
      (self, { g with
          results_values := Function.update (record_response g) tridx_OUTCOME OUTCOME_FA
          next_state := STATE_TYPE.ERROR }) := by
  unfold StateResponseWindow.loop_with record_response
  by_cases h0 : g.results_values tridx_RESPONSE = 0 <;>
    simp [not_le.mpr h, hl, hr, h0, ht]

theorem record_response_of_ne (g : Globals) (h : g.results_values tridx_RESPONSE ≠ 0) :
    record_response g = g.results_values := by
  simp [record_response, h]

theorem record_response_of_eq (g : Globals) (h : g.results_values tridx_RESPONSE = 0) :
    record_response g tridx_RESPONSE = GO := by
  simp [record_response, h]

theorem record_response_outcome (g : Globals) :
    record_response g tridx_OUTCOME = g.results_values tridx_OUTCOME := by
  unfold record_response
  split
  · exact Function.update_noteq (Ne.symm tridx_RESPONSE_ne_OUTCOME) _ _
  · rfl

/-- The finish hook writes nothing once a response is recorded. -/
theorem s_finish_of_response (self : StateResponseWindow) (g : Globals)
    (h : g.results_values tridx_RESPONSE ≠ 0) :
    StateResponseWindow.s_finish self g = (self, g) := by
  simp [StateResponseWindow.s_finish, h]


/-! ## The Response Window finish hook -/

/-- C1. The claim is that `StateResponseWindow::s_finish` writes
`next_state = INTER_TRIAL_INTERVAL` also when a response is already recorded. On the
globals left by a hit (response GO, `next_state` still RESPONSE_WINDOW) the hook
returns them untouched: `next_state` stays RESPONSE_WINDOW and is not
INTER_TRIAL_INTERVAL. -/
theorem s_finish_after_response_keeps_next_state :
    globals_after_hit.results_values tridx_RESPONSE ≠ 0 ∧
    (StateResponseWindow.s_finish (srw_counted 1) globals_after_hit).2.next_state
      = STATE_TYPE.RESPONSE_WINDOW ∧
    (StateResponseWindow.s_finish (srw_counted 1) globals_after_hit).2.next_state
      ≠ STATE_TYPE.INTER_TRIAL_INTERVAL := by
  decide

/-- C2, the claim as stated fails: with the initial parameter table `REW` is 0, which
is not GO, no response is recorded, and the finish hook sets the outcome to
OUTCOME_MISS, not to OUTCOME_CR. -/
theorem s_finish_unset_rew_is_miss :
    Globals.init.param_values tpidx_REW ≠ GO ∧
    Globals.init.results_values tridx_RESPONSE = 0 ∧
    (StateResponseWindow.s_finish (srw_counted 0) Globals.init).2.results_values tridx_OUTCOME
      = OUTCOME_MISS ∧
    (StateResponseWindow.s_finish (srw_counted 0) Globals.init).2.results_values tridx_OUTCOME
      ≠ OUTCOME_CR := by
  decide

/-- C2, amended. When `StateResponseWindow::s_finish` runs with no response recorded,
it sets RESPONSE to NOGO, `next_state` to INTER_TRIAL_INTERVAL, and OUTCOME to
OUTCOME_CR if param `REW` equals NOGO and to OUTCOME_MISS for every other value of
`REW`; the parameter table is left as it was. -/
theorem s_finish_no_response (self : StateResponseWindow) (g : Globals)
    (h : g.results_values tridx_RESPONSE = 0) :
    (StateResponseWindow.s_finish self g).2.results_values tridx_RESPONSE = NOGO ∧
    (StateResponseWindow.s_finish self g).2.next_state = STATE_TYPE.INTER_TRIAL_INTERVAL ∧
    (StateResponseWindow.s_finish self g).2.results_values tridx_OUTCOME
      = (if g.param_values tpidx_REW = NOGO then OUTCOME_CR else OUTCOME_MISS) ∧
    (StateResponseWindow.s_finish self g).2.param_values = g.param_values := by
  have hne := tridx_RESPONSE_ne_OUTCOME
  unfold StateResponseWindow.s_finish
  by_cases hr : g.param_values tpidx_REW = NOGO <;>
    simp [h, hr, Function.update_noteq hne]

/-- Witness of C2 amended: a NOGO trial (`REW` = 2) that times out without a
response. -/
theorem s_finish_no_response_witness :
    (Globals.init.with_param tpidx_REW NOGO).results_values tridx_RESPONSE = 0 ∧
    ((StateResponseWindow.s_finish (srw_counted 0)
        (Globals.init.with_param tpidx_REW NOGO)).2.results_values tridx_RESPONSE = NOGO ∧
     (StateResponseWindow.s_finish (srw_counted 0)
        (Globals.init.with_param tpidx_REW NOGO)).2.next_state
        = STATE_TYPE.INTER_TRIAL_INTERVAL ∧
     (StateResponseWindow.s_finish (srw_counted 0)
        (Globals.init.with_param tpidx_REW NOGO)).2.results_values tridx_OUTCOME
        = (if (Globals.init.with_param tpidx_REW NOGO).param_values tpidx_REW = NOGO
            then OUTCOME_CR else OUTCOME_MISS) ∧
     (StateResponseWindow.s_finish (srw_counted 0)
        (Globals.init.with_param tpidx_REW NOGO)).2.param_values
        = (Globals.init.with_param tpidx_REW NOGO).param_values) :=
  ⟨by decide, s_finish_no_response (srw_counted 0) (Globals.init.with_param tpidx_REW NOGO)
    (by decide)⟩

/-! ## The Response Window poll -/

/-- C3. First response wins: when `results_values[RESPONSE]` is non-zero, a poll of
`StateResponseWindow::loop` (on a real or a fake Response Window, for every lick
input, parameter table and reward count) and `StateResponseWindow::s_finish` leave
`results_values[RESPONSE]` as it is. -/
theorem response_first_wins (T : Int) (env : Inputs) (self : StateResponseWindow)
    (g : Globals) (h : g.results_values tridx_RESPONSE ≠ 0) :
    (StateResponseWindow.loop T env self g).2.results_values tridx_RESPONSE
      = g.results_values tridx_RESPONSE ∧
    (StateFakeResponseWindow.loop T env self g).2.results_values tridx_RESPONSE
      = g.results_values tridx_RESPONSE ∧
    (StateResponseWindow.s_finish self g).2.results_values tridx_RESPONSE
      = g.results_values tridx_RESPONSE := by
  have key : ∀ hook : Inputs → Bool,
      (StateResponseWindow.loop_with hook T env self g).2.results_values tridx_RESPONSE
        = g.results_values tridx_RESPONSE := by
    intro hook
    have hne := tridx_RESPONSE_ne_OUTCOME
    unfold StateResponseWindow.loop_with
    simp only [h, if_false]
    split_ifs <;> simp [Function.update_noteq hne]
  refine ⟨key _, key _, ?_⟩
  rw [s_finish_of_response self g h]

/-- Witness of C3: a lick polled after a hit. -/
theorem response_first_wins_witness :
    globals_after_hit.results_values tridx_RESPONSE ≠ 0 ∧
    ((StateResponseWindow.loop 2 env_lick (srw_counted 1) globals_after_hit).2.results_values
        tridx_RESPONSE = globals_after_hit.results_values tridx_RESPONSE ∧
     (StateFakeResponseWindow.loop 2 env_lick (srw_counted 1)
        globals_after_hit).2.results_values tridx_RESPONSE
        = globals_after_hit.results_values tridx_RESPONSE ∧
     (StateResponseWindow.s_finish (srw_counted 1) globals_after_hit).2.results_values
        tridx_RESPONSE = globals_after_hit.results_values tridx_RESPONSE) :=
  ⟨by decide, response_first_wins 2 env_lick (srw_counted 1) globals_after_hit (by decide)⟩


/-- C4, the claim as stated fails: a lick is detected on a rewarded trial (`REW` is
GO) by an object that has already counted one reward with `MRT` = 1, and the poll
leaves the count at 1 instead of raising it to 2. -/
theorem loop_lick_at_limit_keeps_count :
    lickThresh < env_lick.analogRead ∧
    (Globals.init.with_param tpidx_REW GO).param_values tpidx_REW = GO ∧
    (srw_counted 1).my_rewards_this_trial = 1 ∧
    (StateResponseWindow.loop 2 env_lick (srw_counted 1)
      (Globals.init.with_param tpidx_REW GO)).1.my_rewards_this_trial = 1 ∧
    (StateResponseWindow.loop 2 env_lick (srw_counted 1)
      (Globals.init.with_param tpidx_REW GO)).1.my_rewards_this_trial
      ≠ (srw_counted 1).my_rewards_this_trial + 1 := by
  decide

/-- C4, amended. A poll of `StateResponseWindow::loop` increments
`my_rewards_this_trial` (an `unsigned int`: by one, 65535 wrapping to 0) exactly when
a lick is detected, param `REW` is GO and the count is below param `MRT`; in every
other case (no lick, `REW` not GO, or count at or above `MRT`) the poll leaves the
count unchanged; and `s_finish` never changes it. -/
theorem loop_reward_count (T : Int) (env : Inputs) (self : StateResponseWindow)
    (g : Globals) :
    (StateResponseWindow.loop T env self g).1.my_rewards_this_trial
      = (if lickThresh < env.analogRead ∧ g.param_values tpidx_REW = GO ∧
            (self.my_rewards_this_trial : Int) < g.param_values tpidx_MRT
          then (self.my_rewards_this_trial + 1) % UINT_MODULUS
          else self.my_rewards_this_trial) ∧
    (StateResponseWindow.s_finish self g).1.my_rewards_this_trial
      = self.my_rewards_this_trial := by
  constructor
  · unfold StateResponseWindow.loop
    by_cases hm : (self.my_rewards_this_trial : Int) < g.param_values tpidx_MRT
    · by_cases hl : lickThresh < env.analogRead
      · have hl2 := (set_licking_variables_eq_true env).mpr hl
        by_cases hr : g.param_values tpidx_REW = GO
        · rw [loop_with_hit _ T env self g hm hl2 hr]
          simp [hm, hl, hr]
        · by_cases ht : g.param_values tpidx_TERMINATE_ON_ERR = T
          · rw [loop_with_error_stay _ T env self g hm hl2 hr ht]
            simp [hr]
          · rw [loop_with_error_stop _ T env self g hm hl2 hr ht]
            simp [hr]
      · have hl2 : StateResponseWindow.set_licking_variables env = false := by
          simpa [StateResponseWindow.set_licking_variables] using hl
        rw [loop_with_quiet _ T env self g hm hl2]
        simp [hl]
    · rw [loop_with_limit _ T env self g (not_lt.mp hm)]
      simp [hm]
  · unfold StateResponseWindow.s_finish
    split <;> rfl

/-- C5. A poll of `StateResponseWindow::loop` made while
`my_rewards_this_trial >= param_values[MRT]` sets `next_state` to
INTER_TRIAL_INTERVAL and `flag_stop` to 1 whatever the lick input is, and leaves the
result table and the reward count unchanged. -/
theorem loop_at_reward_limit (T : Int) (env : Inputs) (self : StateResponseWindow)
    (g : Globals) (h : (self.my_rewards_this_trial : Int) ≥ g.param_values tpidx_MRT) :
    (StateResponseWindow.loop T env self g).2.next_state = STATE_TYPE.INTER_TRIAL_INTERVAL ∧
    (StateResponseWindow.loop T env self g).1.flag_stop = true ∧
    (StateResponseWindow.loop T env self g).2.results_values = g.results_values ∧
    (StateResponseWindow.loop T env self g).1.my_rewards_this_trial
      = self.my_rewards_this_trial := by
  unfold StateResponseWindow.loop
  rw [loop_with_limit _ T env self g h]
  exact ⟨rfl, rfl, rfl, rfl⟩

/-- Witness of C5: one reward counted, `MRT` = 1, a lick on the detector. -/
theorem loop_at_reward_limit_witness :
    ((srw_counted 1).my_rewards_this_trial : Int) ≥ Globals.init.param_values tpidx_MRT ∧
    ((StateResponseWindow.loop 2 env_lick (srw_counted 1) Globals.init).2.next_state
        = STATE_TYPE.INTER_TRIAL_INTERVAL ∧
     (StateResponseWindow.loop 2 env_lick (srw_counted 1) Globals.init).1.flag_stop = true ∧
     (StateResponseWindow.loop 2 env_lick (srw_counted 1) Globals.init).2.results_values
        = Globals.init.results_values ∧
     (StateResponseWindow.loop 2 env_lick (srw_counted 1) Globals.init).1.my_rewards_this_trial
        = (srw_counted 1).my_rewards_this_trial) :=
  ⟨by decide, loop_at_reward_limit 2 env_lick (srw_counted 1) Globals.init (by decide)⟩

/-- C6. Hit: a poll of `StateResponseWindow::loop` with a lick detected, param `REW`
equal to GO and `my_rewards_this_trial` below param `MRT` sets `next_state` to
REWARD, sets `results_values[OUTCOME]` to OUTCOME_HIT and, when no response was
recorded before, sets `results_values[RESPONSE]` to GO. -/
theorem loop_hit (T : Int) (env : Inputs) (self : StateResponseWindow) (g : Globals)
    (hl : lickThresh < env.analogRead) (hr : g.param_values tpidx_REW = GO)
    (hm : (self.my_rewards_this_trial : Int) < g.param_values tpidx_MRT) :
    (StateResponseWindow.loop T env self g).2.next_state = STATE_TYPE.REWARD ∧
    (StateResponseWindow.loop T env self g).2.results_values tridx_OUTCOME = OUTCOME_HIT ∧
    (g.results_values tridx_RESPONSE = 0 →
      (StateResponseWindow.loop T env self g).2.results_values tridx_RESPONSE = GO) := by
  unfold StateResponseWindow.loop
  rw [loop_with_hit _ T env self g hm ((set_licking_variables_eq_true env).mpr hl) hr]
  refine ⟨rfl, by simp, fun h0 => ?_⟩
  show Function.update (record_response g) tridx_OUTCOME OUTCOME_HIT tridx_RESPONSE = GO
  rw [Function.update_noteq tridx_RESPONSE_ne_OUTCOME]
  exact record_response_of_eq g h0

/-- Witness of C6: the first lick of a rewarded trial. -/
theorem loop_hit_witness :
    lickThresh < env_lick.analogRead ∧
    (Globals.init.with_param tpidx_REW GO).param_values tpidx_REW = GO ∧
    ((srw_counted 0).my_rewards_this_trial : Int)
      < (Globals.init.with_param tpidx_REW GO).param_values tpidx_MRT ∧
    ((StateResponseWindow.loop 2 env_lick (srw_counted 0)
        (Globals.init.with_param tpidx_REW GO)).2.next_state = STATE_TYPE.REWARD ∧
     (StateResponseWindow.loop 2 env_lick (srw_counted 0)
        (Globals.init.with_param tpidx_REW GO)).2.results_values tridx_OUTCOME = OUTCOME_HIT ∧
     ((Globals.init.with_param tpidx_REW GO).results_values tridx_RESPONSE = 0 →
      (StateResponseWindow.loop 2 env_lick (srw_counted 0)
        (Globals.init.with_param tpidx_REW GO)).2.results_values tridx_RESPONSE = GO)) :=
  ⟨by decide, by decide, by decide,
    loop_hit 2 env_lick (srw_counted 0) (Globals.init.with_param tpidx_REW GO)
      (by decide) (by decide) (by decide)⟩

/-- C7. False alarm: a poll of `StateResponseWindow::loop` with a lick detected, the
reward limit not reached, param `REW` different from GO and param `TOE` different
from `__TRIAL_SPEAK_NO` sets `results_values[OUTCOME]` to OUTCOME_FA and `next_state`
to ERROR, and does not change the reward count. -/
theorem loop_false_alarm (T : Int) (env : Inputs) (self : StateResponseWindow)
    (g : Globals) (hl : lickThresh < env.analogRead)
    (hm : (self.my_rewards_this_trial : Int) < g.param_values tpidx_MRT)
    (hr : g.param_values tpidx_REW ≠ GO)
    (ht : g.param_values tpidx_TERMINATE_ON_ERR ≠ T) :
    (StateResponseWindow.loop T env self g).2.results_values tridx_OUTCOME = OUTCOME_FA ∧
    (StateResponseWindow.loop T env self g).2.next_state = STATE_TYPE.ERROR ∧
    (StateResponseWindow.loop T env self g).1.my_rewards_this_trial
      = self.my_rewards_this_trial := by
  unfold StateResponseWindow.loop
  rw [loop_with_error_stop _ T env self g hm ((set_licking_variables_eq_true env).mpr hl) hr ht]
  exact ⟨by simp, rfl, rfl⟩

/-- Witness of C7: a lick with the initial parameters (`REW` = 0, `TOE` = 1) and
`__TRIAL_SPEAK_NO` taken as 2. -/
theorem loop_false_alarm_witness :
    lickThresh < env_lick.analogRead ∧
    ((srw_counted 0).my_rewards_this_trial : Int) < Globals.init.param_values tpidx_MRT ∧
    Globals.init.param_values tpidx_REW ≠ GO ∧
    Globals.init.param_values tpidx_TERMINATE_ON_ERR ≠ 2 ∧
    ((StateResponseWindow.loop 2 env_lick (srw_counted 0) Globals.init).2.results_values
        tridx_OUTCOME = OUTCOME_FA ∧
     (StateResponseWindow.loop 2 env_lick (srw_counted 0) Globals.init).2.next_state
        = STATE_TYPE.ERROR ∧
     (StateResponseWindow.loop 2 env_lick (srw_counted 0) Globals.init).1.my_rewards_this_trial
        = (srw_counted 0).my_rewards_this_trial) :=
  ⟨by decide, by decide, by decide, by decide,
    loop_false_alarm 2 env_lick (srw_counted 0) Globals.init
      (by decide) (by decide) (by decide) (by decide)⟩

/-- C8. Non-terminate-on-error branch: a poll of `StateResponseWindow::loop` with a
lick detected, the reward limit not reached, param `REW` different from GO and param
`TOE` equal to `__TRIAL_SPEAK_NO` returns the object unchanged (so the reward count
and `flag_stop` are as before) and the globals unchanged except that
`results_values[RESPONSE]` becomes GO when it was 0; in particular `next_state` and
`results_values[OUTCOME]` are as before. -/
theorem loop_error_without_toe (T : Int) (env : Inputs) (self : StateResponseWindow)
    (g : Globals) (hl : lickThresh < env.analogRead)
    (hm : (self.my_rewards_this_trial : Int) < g.param_values tpidx_MRT)
    (hr : g.param_values tpidx_REW ≠ GO)
    (ht : g.param_values tpidx_TERMINATE_ON_ERR = T) :
    StateResponseWindow.loop T env self g
      = (self,
          { g with
            results_values :=
              if g.results_values tridx_RESPONSE = 0 then
                Function.update g.results_values tridx_RESPONSE GO
              else g.results_values }) ∧
    (StateResponseWindow.loop T env self g).2.next_state = g.next_state ∧
    (StateResponseWindow.loop T env self g).2.results_values tridx_OUTCOME
      = g.results_values tridx_OUTCOME ∧
    (StateResponseWindow.loop T env self g).1.my_rewards_this_trial
      = self.my_rewards_this_trial ∧
    (StateResponseWindow.loop T env self g).1.flag_stop = self.flag_stop := by
  unfold StateResponseWindow.loop
  rw [loop_with_error_stay _ T env self g hm ((set_licking_variables_eq_true env).mpr hl) hr ht]
  exact ⟨rfl, rfl, record_response_outcome g, rfl, rfl⟩

/-- Witness of C8: a lick on an unrewarded trial with `TOE` equal to the value 2
taken for `__TRIAL_SPEAK_NO`. -/
theorem loop_error_without_toe_witness :
    lickThresh < env_lick.analogRead ∧
    ((srw_counted 0).my_rewards_this_trial : Int)
      < globals_without_toe.param_values tpidx_MRT ∧
    globals_without_toe.param_values tpidx_REW ≠ GO ∧
    globals_without_toe.param_values tpidx_TERMINATE_ON_ERR = 2 ∧
    (StateResponseWindow.loop 2 env_lick (srw_counted 0) globals_without_toe
      = (srw_counted 0,
          { globals_without_toe with
            results_values :=
              if globals_without_toe.results_values tridx_RESPONSE = 0 then
                Function.update globals_without_toe.results_values tridx_RESPONSE GO
              else globals_without_toe.results_values }) ∧
     (StateResponseWindow.loop 2 env_lick (srw_counted 0) globals_without_toe).2.next_state
      = globals_without_toe.next_state ∧
     (StateResponseWindow.loop 2 env_lick (srw_counted 0)
        globals_without_toe).2.results_values tridx_OUTCOME
      = globals_without_toe.results_values tridx_OUTCOME ∧
     (StateResponseWindow.loop 2 env_lick (srw_counted 0)
        globals_without_toe).1.my_rewards_this_trial
      = (srw_counted 0).my_rewards_this_trial ∧
     (StateResponseWindow.loop 2 env_lick (srw_counted 0) globals_without_toe).1.flag_stop
      = (srw_counted 0).flag_stop) :=
  ⟨by decide, by decide, by decide, by decide,
    loop_error_without_toe 2 env_lick (srw_counted 0) globals_without_toe
      (by decide) (by decide) (by decide) (by decide)⟩

/-! ## The Stimulus Period -/

/-- The setup hook of the Stimulus Period takes its duration from `REW_DUR`. -/
theorem stim_period_setup_duration (self : StimPeriod) (g : Globals) :
    (StimPeriod.s_setup self g).1.duration
      = to_unsigned_long (g.param_values tpidx_REW_DUR) := rfl

/-- A poll of the Stimulus Period does not write `licked`. -/
theorem stim_period_loop_licked (env : Inputs) (self : StimPeriod) (g : Globals) :
    (StimPeriod.loop env self g).1.licked = self.licked := by
  unfold StimPeriod.loop
  simp only
  split <;> rfl

theorem stim_period_polls_licked (polls : List Inputs) (st : StimPeriod × Globals) :
    (polls.foldl (fun st env => StimPeriod.loop env st.1 st.2) st).1.licked = st.1.licked := by
  induction polls generalizing st with
  | nil => rfl
  | cons env rest ih =>
    rw [List.foldl_cons, ih]
    exact stim_period_loop_licked env st.1 st.2

/-- Whatever the polls of a Stimulus Period see, it ends with
`next_state = RESPONSE_WINDOW`. -/
theorem stim_period_always_response_window (polls : List Inputs) (self : StimPeriod)
    (g : Globals) :
    (StimPeriod.period polls self g).2.next_state = STATE_TYPE.RESPONSE_WINDOW := by
  have h := stim_period_polls_licked polls (StimPeriod.s_setup self g)
  have h0 : (StimPeriod.s_setup self g).1.licked = false := rfl
  rw [h0] at h
  unfold StimPeriod.period StimPeriod.s_finish
  simp [h]

/-- C9. The claim is that after `StimPeriod::s_setup` the duration is the value of
the STIMDUR parameter. With the initial parameter table (STIMDUR = 2000,
REW_DUR = 50) the hook leaves the duration at 50, the value of `REW_DUR`, and not at
2000. -/
theorem stim_period_setup_reads_rew_dur :
    Globals.init.param_values tpidx_STIM_DUR = 2000 ∧
    Globals.init.param_values tpidx_REW_DUR = 50 ∧
    (StimPeriod.s_setup stim_period_init Globals.init).1.duration = 50 ∧
    (StimPeriod.s_setup stim_period_init Globals.init).1.duration
      ≠ to_unsigned_long (Globals.init.param_values tpidx_STIM_DUR) := by
  decide

/-- C10. The claim is that a Stimulus Period during which the lick detector reads
above threshold in some poll ends with `next_state = ERROR`. In the run `s_setup`,
three polls of `loop` the second of which has the detector at 1000 (threshold 900),
`s_finish`, the finish hook still finds `licked` at 0 and sets `next_state` to
RESPONSE_WINDOW, not to ERROR. -/
theorem stim_period_lick_goes_to_response_window :
    lickThresh < env_lick.analogRead ∧
    checkLicks env_lick = true ∧
    (StimPeriod.period [env_quiet, env_lick, env_quiet] stim_period_init
      Globals.init).2.next_state = STATE_TYPE.RESPONSE_WINDOW ∧
    (StimPeriod.period [env_quiet, env_lick, env_quiet] stim_period_init
      Globals.init).2.next_state ≠ STATE_TYPE.ERROR := by
  decide

/-! ## Trial start -/

theorem emitted_append (before added : List Effect) :
    emitted before (before ++ added) = added := by
  simp [emitted]

/-- The result loop of `StateTrialStart::run` over a list of indices. -/
theorem reset_loop (l : List (Fin N_TRIAL_RESULTS)) (acc : Globals) :
    (l.foldl (fun acc i =>
        { acc with
          results_values :=
            Function.update acc.results_values i (acc.default_results_values i) }) acc)
      = { acc with
          results_values := fun j =>
            if j ∈ l then acc.default_results_values j else acc.results_values j } := by
  induction l generalizing acc with
  | nil => simp
  | cons i rest ih =>
    rw [List.foldl_cons, ih]
    congr 1
    funext j
    by_cases hj : j ∈ rest
    · simp [hj]
    · by_cases hji : j = i
      · subst hji
        simp [hj]
      · simp [hj, hji, Function.update_noteq hji]

/-- The parameter loop of `StateTrialStart::run` over a list of indices. -/
theorem report_loop (time : Nat) (l : List (Fin N_TRIAL_PARAMS)) (acc : Globals) :
    (l.foldl (fun acc i =>
        if acc.param_report_ET i = true then
          { acc with
            effects := acc.effects ++
              [Effect.serialPrint (Printed.number time),
               Effect.serialPrint (Printed.text " TRLP "),
               Effect.serialPrint (Printed.cstring (param_abbrevs i)),
               Effect.serialPrint (Printed.text " "),
               Effect.serialPrintln (Printed.number (acc.param_values i))] }
        else acc) acc)
      = { acc with
          effects := acc.effects ++
            trlp_effects time acc.param_report_ET acc.param_values l } := by
  induction l generalizing acc with
  | nil => simp [trlp_effects]
  | cons i rest ih =>
    rw [List.foldl_cons, ih]
    by_cases hf : acc.param_report_ET i = true
    · simp [hf, trlp_effects]
    · simp [hf, trlp_effects]

theorem serial_lines_trlp (time : Nat) (g : Globals) (l : List (Fin N_TRIAL_PARAMS)) :
    serial_lines_from [] (trlp_effects time g.param_report_ET g.param_values l)
      = (l.filter (fun i => g.param_report_ET i)).map (TRLP_line time g) := by
  induction l with
  | nil => simp [trlp_effects, serial_lines_from]
  | cons i rest ih =>
    by_cases hf : g.param_report_ET i = true
    · simp [trlp_effects, hf, serial_lines_from, ih, TRLP_line]
    · simp [trlp_effects, hf, ih]

/-- What `StateTrialStart::run` leaves before it calls the protocol hook. -/
theorem trial_start_run_eq (hook : Globals → Globals) (time : Nat) (g : Globals) :
    StateTrialStart.run hook time g
      = hook { g with
          effects := g.effects ++
            ([Effect.serialPrint (Printed.number time),
              Effect.serialPrintln (Printed.text " TRL_START")] ++
             trlp_effects time g.param_report_ET g.param_values
               (List.finRange N_TRIAL_PARAMS))
          results_values := g.default_results_values } := by
  unfold StateTrialStart.run
  simp only [report_loop, reset_loop]
  congr 1
  simp [List.mem_finRange, List.append_assoc]

/-- C11. The claim is that `StateResponseWindow::s_setup` resets the per-trial
members. On an object that ends a trial with one reward counted and `my_licking`
set, the hook assigns `duration` only: afterwards `my_rewards_this_trial` is still 1,
not 0, and `my_licking` is still set. -/
theorem response_window_setup_keeps_members :
    srw_used.my_rewards_this_trial = 1 ∧
    (StateResponseWindow.s_setup srw_used Globals.init).1.my_rewards_this_trial = 1 ∧
    (StateResponseWindow.s_setup srw_used Globals.init).1.my_rewards_this_trial ≠ 0 ∧
    (StateResponseWindow.s_setup srw_used Globals.init).1.my_licking = true := by
  decide

/-- C12. For every content of the tables and every protocol hook that writes no
global but `next_state`, after `StateTrialStart::run` each entry of `results_values`
equals the entry of `default_results_values`, the default table and the parameter
table are as before, and a second run (at any time) gives the same result table as
the first. -/
theorem trial_start_resets_results (hook : Globals → Globals) (time time2 : Nat)
    (g : Globals) (hh : sets_only_next_state hook) :
    (∀ i, (StateTrialStart.run hook time g).results_values i
            = g.default_results_values i) ∧
    (StateTrialStart.run hook time g).results_values
      = (StateTrialStart.run hook time g).default_results_values ∧
    (StateTrialStart.run hook time g).default_results_values = g.default_results_values ∧
    (StateTrialStart.run hook time g).param_values = g.param_values ∧
    (StateTrialStart.run hook time2 (StateTrialStart.run hook time g)).results_values
      = (StateTrialStart.run hook time g).results_values := by
  have key : ∀ (t : Nat) (g : Globals),
      (StateTrialStart.run hook t g).results_values = g.default_results_values ∧
      (StateTrialStart.run hook t g).default_results_values = g.default_results_values ∧
      (StateTrialStart.run hook t g).param_values = g.param_values := by
    intro t g
    rw [trial_start_run_eq, hh]
    exact ⟨rfl, rfl, rfl⟩
  obtain ⟨h1, h2, h3⟩ := key time g
  refine ⟨fun i => by rw [h1], by rw [h1, h2], h2, h3, ?_⟩
  rw [(key time2 _).1, h2, h1]

/-- Witness of C12: the reset after a hit, with a hook that goes on to the Stimulus
Period. -/
theorem trial_start_resets_results_witness :
    sets_only_next_state hook_to_stim ∧
    ((∀ i, (StateTrialStart.run hook_to_stim 7 globals_after_hit).results_values i
            = globals_after_hit.default_results_values i) ∧
     (StateTrialStart.run hook_to_stim 7 globals_after_hit).results_values
       = (StateTrialStart.run hook_to_stim 7 globals_after_hit).default_results_values ∧
     (StateTrialStart.run hook_to_stim 7 globals_after_hit).default_results_values
       = globals_after_hit.default_results_values ∧
     (StateTrialStart.run hook_to_stim 7 globals_after_hit).param_values
       = globals_after_hit.param_values ∧
     (StateTrialStart.run hook_to_stim 9
        (StateTrialStart.run hook_to_stim 7 globals_after_hit)).results_values
       = (StateTrialStart.run hook_to_stim 7 globals_after_hit).results_values) :=
  ⟨fun _ => rfl, trial_start_resets_results hook_to_stim 7 9 globals_after_hit (fun _ => rfl)⟩

/-- C13. For every parameter table and report-flag table, and every protocol hook
that writes no global but `next_state`, the serial output of `StateTrialStart::run`
is the line `<time> TRL_START` followed by the lines `<time> TRLP <abbreviation>
<value>` of exactly the parameter indices whose report flag is set, one line each, in
increasing index order. -/
theorem trial_start_report (hook : Globals → Globals) (time : Nat) (g : Globals)
    (hh : sets_only_next_state hook) :
    (StateTrialStart.run hook time g).effects
      = g.effects ++ emitted g.effects (StateTrialStart.run hook time g).effects ∧
    serial_lines (emitted g.effects (StateTrialStart.run hook time g).effects)
      = TRL_START_line time ::
          ((List.finRange N_TRIAL_PARAMS).filter (fun i => g.param_report_ET i)).map
            (TRLP_line time g) := by
  have he : (StateTrialStart.run hook time g).effects
      = g.effects ++
          ([Effect.serialPrint (Printed.number time),
            Effect.serialPrintln (Printed.text " TRL_START")] ++
           trlp_effects time g.param_report_ET g.param_values
             (List.finRange N_TRIAL_PARAMS)) := by
    rw [trial_start_run_eq, hh]
  rw [he, emitted_append]
  refine ⟨rfl, ?_⟩
  simp [serial_lines, serial_lines_from, serial_lines_trlp, TRL_START_line]

/-- Witness of C13: the report of the initial tables at time 7, four flagged
parameters. -/
theorem trial_start_report_witness :
    sets_only_next_state hook_to_stim ∧
    ((StateTrialStart.run hook_to_stim 7 Globals.init).effects
       = Globals.init.effects
          ++ emitted Globals.init.effects (StateTrialStart.run hook_to_stim 7 Globals.init).effects ∧
     serial_lines
        (emitted Globals.init.effects (StateTrialStart.run hook_to_stim 7 Globals.init).effects)
       = TRL_START_line 7 ::
          ((List.finRange N_TRIAL_PARAMS).filter (fun i => Globals.init.param_report_ET i)).map
            (TRLP_line 7 Globals.init)) :=
  ⟨fun _ => rfl, trial_start_report hook_to_stim 7 Globals.init (fun _ => rfl)⟩


/-! ## Inter-trial interval, error timeout, post-reward pause, reward -/

/-- The result loop of `StateInterTrialInterval::s_setup` over a list of indices. -/
theorem trlr_loop (time : Nat) (l : List (Fin N_TRIAL_RESULTS)) (acc : Globals) :
    (l.foldl (fun acc i =>
        { acc with
          effects := acc.effects ++
            [Effect.serialPrint (Printed.number time),
             Effect.serialPrint (Printed.text " TRLR "),
             Effect.serialPrint (Printed.cstring (results_abbrevs i)),
             Effect.serialPrint (Printed.text " "),
             Effect.serialPrintln (Printed.number (acc.results_values i))] }) acc)
      = { acc with effects := acc.effects ++ trlr_effects time acc.results_values l } := by
  induction l generalizing acc with
  | nil => simp [trlr_effects]
  | cons i rest ih =>
    rw [List.foldl_cons, ih]
    simp [trlr_effects]

theorem serial_lines_trlr (time : Nat) (g : Globals) (l : List (Fin N_TRIAL_RESULTS)) :
    serial_lines_from [] (trlr_effects time g.results_values l)
      = l.map (TRLR_line time g) := by
  induction l with
  | nil => simp [trlr_effects, serial_lines_from]
  | cons i rest ih => simp [trlr_effects, serial_lines_from, ih, TRLR_line]

/-- What `StateInterTrialInterval::s_setup` returns. -/
theorem iti_setup_eq (self : StateInterTrialInterval) (g : Globals) :
    StateInterTrialInterval.s_setup self g
      = ({ self with duration := to_unsigned_long (g.param_values tpidx_ITI) },
         { g with
           effects := g.effects ++
             trlr_effects self.time_of_last_call g.results_values
               (List.finRange N_TRIAL_RESULTS) }) := by
  unfold StateInterTrialInterval.s_setup
  simp only [trlr_loop]

/-- C14. For every result table, the serial output of
`StateInterTrialInterval::s_setup` consists of exactly N_TRIAL_RESULTS lines, the
lines `<time_of_last_call> TRLR <abbreviation> <value>` of the result indices in
increasing order, all with the one timestamp `time_of_last_call` the object holds at
entry; the hook changes no result value, and it sets `duration` to the ITI parameter
(converted to `unsigned long`). -/
theorem iti_setup_report (self : StateInterTrialInterval) (g : Globals) :
    (StateInterTrialInterval.s_setup self g).2.effects
      = g.effects ++ emitted g.effects (StateInterTrialInterval.s_setup self g).2.effects ∧
    serial_lines (emitted g.effects (StateInterTrialInterval.s_setup self g).2.effects)
      = (List.finRange N_TRIAL_RESULTS).map (TRLR_line self.time_of_last_call g) ∧
    (serial_lines
      (emitted g.effects (StateInterTrialInterval.s_setup self g).2.effects)).length
      = N_TRIAL_RESULTS ∧
    (StateInterTrialInterval.s_setup self g).2.results_values = g.results_values ∧
    (StateInterTrialInterval.s_setup self g).1.time_of_last_call = self.time_of_last_call ∧
    (StateInterTrialInterval.s_setup self g).1.duration
      = to_unsigned_long (g.param_values tpidx_ITI) := by
  rw [iti_setup_eq]
  refine ⟨?_, ?_, ?_, rfl, rfl, rfl⟩
  · exact (congrArg (fun l => g.effects ++ l) (emitted_append g.effects _)).symm
  · rw [emitted_append]
    exact serial_lines_trlr self.time_of_last_call g _
  · rw [emitted_append, serial_lines, serial_lines_trlr]
    simp

/-- C15. The unconditional transitions: for every object and every globals,
`StateInterTrialInterval::s_finish` sets `next_state` to WAIT_TO_START_TRIAL,
`StateErrorTimeout::s_finish` to INTER_TRIAL_INTERVAL, `StatePostRewardPause::s_finish`
to RESPONSE_WINDOW and `state_reward` to POST_REWARD_PAUSE, returning 0; none of them
changes the result table or the parameter table. -/
theorem unconditional_transitions (iti : StateInterTrialInterval) (err : StateErrorTimeout)
    (prp : StatePostRewardPause) (g : Globals) :
    ((StateInterTrialInterval.s_finish iti g).2.next_state = STATE_TYPE.WAIT_TO_START_TRIAL ∧
      (StateInterTrialInterval.s_finish iti g).2.results_values = g.results_values ∧
      (StateInterTrialInterval.s_finish iti g).2.param_values = g.param_values) ∧
    ((StateErrorTimeout.s_finish err g).2.next_state = STATE_TYPE.INTER_TRIAL_INTERVAL ∧
      (StateErrorTimeout.s_finish err g).2.results_values = g.results_values ∧
      (StateErrorTimeout.s_finish err g).2.param_values = g.param_values) ∧
    ((StatePostRewardPause.s_finish prp g).2.next_state = STATE_TYPE.RESPONSE_WINDOW ∧
      (StatePostRewardPause.s_finish prp g).2.results_values = g.results_values ∧
      (StatePostRewardPause.s_finish prp g).2.param_values = g.param_values) ∧
    ((state_reward g).2.next_state = STATE_TYPE.POST_REWARD_PAUSE ∧
      (state_reward g).1 = 0 ∧
      (state_reward g).2.results_values = g.results_values ∧
      (state_reward g).2.param_values = g.param_values) :=
  ⟨⟨rfl, rfl, rfl⟩, ⟨rfl, rfl, rfl⟩, ⟨rfl, rfl, rfl⟩, ⟨rfl, rfl, rfl, rfl⟩⟩

/-- The Post-Reward Pause keeps at entry the duration it was built with. -/
theorem post_reward_pause_setup_duration (self : StatePostRewardPause) (g : Globals) :
    (StatePostRewardPause.s_setup self g).1.duration = self.duration := rfl

/-- C16. The claim is that at every entry the duration of the Post-Reward Pause is the
value the inter-reward-interval parameter has then. The object is built by `getStates`
while the parameter is 500; the host then sets the parameter to 800; at entry the
duration is still 500, not 800. -/
theorem post_reward_pause_ignores_new_interval :
    Globals.init.param_values tpidx_INTER_REWARD_INTERVAL = 500 ∧
    globals_iri_800.param_values tpidx_INTER_REWARD_INTERVAL = 800 ∧
    (StatePostRewardPause.s_setup (getStates TIMER_PIN Globals.init).state_post_reward_pause
      globals_iri_800).1.duration = 500 ∧
    (StatePostRewardPause.s_setup (getStates TIMER_PIN Globals.init).state_post_reward_pause
      globals_iri_800).1.duration
      ≠ to_unsigned_long (globals_iri_800.param_values tpidx_INTER_REWARD_INTERVAL) := by
  decide


/-! ## End-to-end scenarios -/

/-- A poll of the Stimulus Period writes neither table nor `next_state`. -/
theorem stim_period_loop_frame (env : Inputs) (self : StimPeriod) (g : Globals) :
    (StimPeriod.loop env self g).2.param_values = g.param_values ∧
    (StimPeriod.loop env self g).2.results_values = g.results_values := by
  unfold StimPeriod.loop
  simp only
  split <;> exact ⟨rfl, rfl⟩

theorem stim_period_polls_frame (polls : List Inputs) (st : StimPeriod × Globals) :
    (polls.foldl (fun st env => StimPeriod.loop env st.1 st.2) st).2.param_values
      = st.2.param_values ∧
    (polls.foldl (fun st env => StimPeriod.loop env st.1 st.2) st).2.results_values
      = st.2.results_values := by
  induction polls generalizing st with
  | nil => exact ⟨rfl, rfl⟩
  | cons env rest ih =>
    rw [List.foldl_cons]
    obtain ⟨h1, h2⟩ := ih (StimPeriod.loop env st.1 st.2)
    obtain ⟨h3, h4⟩ := stim_period_loop_frame env st.1 st.2
    exact ⟨h1.trans h3, h2.trans h4⟩

/-- A Stimulus Period leaves the two tables as they were. -/
theorem stim_period_frame (polls : List Inputs) (self : StimPeriod) (g : Globals) :
    (StimPeriod.period polls self g).2.param_values = g.param_values ∧
    (StimPeriod.period polls self g).2.results_values = g.results_values := by
  obtain ⟨h1, h2⟩ := stim_period_polls_frame polls (StimPeriod.s_setup self g)
  unfold StimPeriod.period StimPeriod.s_finish
  simp only
  split <;> exact ⟨h1, h2⟩

/-- C17. End-to-end scenario 1. With REW = 1 and MRT = 1 (and every value of the
other parameters, REW_DUR = 50 and RWIN = 45000 among them), results at their defaults
(0, 0) and reward count 0: a Stimulus Period (with or without licks) ends with
`next_state` = RESPONSE_WINDOW; a Response Window poll with a lick gives
RESPONSE = GO, OUTCOME = HIT, `next_state` = REWARD and reward count 1; `state_reward`
gives POST_REWARD_PAUSE; the Post-Reward Pause finish gives RESPONSE_WINDOW; and the
next Response Window poll, whatever the lick input, gives `next_state` =
INTER_TRIAL_INTERVAL with RESPONSE and OUTCOME still GO and HIT. -/
theorem scenario1_hit (T : Int) (polls : List Inputs) (env1 env2 : Inputs)
    (sp : StimPeriod) (srw : StateResponseWindow) (prp : StatePostRewardPause) (g : Globals)
    (hrew : g.param_values tpidx_REW = 1) (hmrt : g.param_values tpidx_MRT = 1)
    (hres : ∀ i, g.results_values i = 0) (hcount : srw.my_rewards_this_trial = 0)
    (hlick : lickThresh < env1.analogRead) :
    (scenario1_stim polls sp g).next_state = STATE_TYPE.RESPONSE_WINDOW ∧
    ((scenario1_poll T env1 srw polls sp g).2.results_values tridx_RESPONSE = GO ∧
      (scenario1_poll T env1 srw polls sp g).2.results_values tridx_OUTCOME = OUTCOME_HIT ∧
      (scenario1_poll T env1 srw polls sp g).2.next_state = STATE_TYPE.REWARD ∧
      (scenario1_poll T env1 srw polls sp g).1.my_rewards_this_trial = 1) ∧
    (scenario1_reward T env1 srw polls sp g).2.next_state = STATE_TYPE.POST_REWARD_PAUSE ∧
    (scenario1_pause prp T env1 srw polls sp g).2.next_state = STATE_TYPE.RESPONSE_WINDOW ∧
    ((scenario1_repoll env2 prp T env1 srw polls sp g).2.next_state
        = STATE_TYPE.INTER_TRIAL_INTERVAL ∧
      (scenario1_repoll env2 prp T env1 srw polls sp g).2.results_values tridx_RESPONSE = GO ∧
      (scenario1_repoll env2 prp T env1 srw polls sp g).2.results_values tridx_OUTCOME
        = OUTCOME_HIT) := by
  obtain ⟨hp, hr⟩ := stim_period_frame polls sp g
  have hrew1 : (scenario1_stim polls sp g).param_values tpidx_REW = GO := by
    show (StimPeriod.period polls sp g).2.param_values tpidx_REW = GO
    rw [hp, hrew]; rfl
  have hmrt1 : ((srw.my_rewards_this_trial : Nat) : Int)
      < (scenario1_stim polls sp g).param_values tpidx_MRT := by
    show _ < (StimPeriod.period polls sp g).2.param_values tpidx_MRT
    rw [hp, hmrt, hcount]; decide
  have hres1 : (scenario1_stim polls sp g).results_values tridx_RESPONSE = 0 := by
    show (StimPeriod.period polls sp g).2.results_values tridx_RESPONSE = 0
    rw [hr]; exact hres _
  have hpoll : scenario1_poll T env1 srw polls sp g
      = ({ srw with my_rewards_this_trial := (srw.my_rewards_this_trial + 1) % UINT_MODULUS },
         { scenario1_stim polls sp g with
            next_state := STATE_TYPE.REWARD
            results_values :=
              Function.update (record_response (scenario1_stim polls sp g))
                tridx_OUTCOME OUTCOME_HIT }) := by
    unfold scenario1_poll StateResponseWindow.loop
    exact loop_with_hit _ T env1 srw _ hmrt1 ((set_licking_variables_eq_true env1).mpr hlick)
      hrew1
  have hresp : (scenario1_poll T env1 srw polls sp g).2.results_values tridx_RESPONSE = GO := by
    rw [hpoll]
    show Function.update (record_response (scenario1_stim polls sp g)) tridx_OUTCOME OUTCOME_HIT
      tridx_RESPONSE = GO
    rw [Function.update_noteq tridx_RESPONSE_ne_OUTCOME]
    exact record_response_of_eq _ hres1
  have hout : (scenario1_poll T env1 srw polls sp g).2.results_values tridx_OUTCOME
      = OUTCOME_HIT := by
    rw [hpoll]
    show Function.update (record_response (scenario1_stim polls sp g)) tridx_OUTCOME OUTCOME_HIT
      tridx_OUTCOME = OUTCOME_HIT
    exact Function.update_same _ _ _
  have hcnt : (scenario1_poll T env1 srw polls sp g).1.my_rewards_this_trial = 1 := by
    rw [hpoll]
    show (srw.my_rewards_this_trial + 1) % UINT_MODULUS = 1
    rw [hcount]; decide
  have hlimit : (((scenario1_poll T env1 srw polls sp g).1.my_rewards_this_trial : Nat) : Int)
      ≥ (scenario1_pause prp T env1 srw polls sp g).2.param_values tpidx_MRT := by
    rw [hcnt]
    show _ ≥ (scenario1_poll T env1 srw polls sp g).2.param_values tpidx_MRT
    rw [hpoll]
    show _ ≥ (StimPeriod.period polls sp g).2.param_values tpidx_MRT
    rw [hp, hmrt]; decide
  have hre : scenario1_repoll env2 prp T env1 srw polls sp g
      = ({ (scenario1_poll T env1 srw polls sp g).1 with flag_stop := true },
         { (scenario1_pause prp T env1 srw polls sp g).2 with
            next_state := STATE_TYPE.INTER_TRIAL_INTERVAL }) := by
    unfold scenario1_repoll StateResponseWindow.loop
    exact loop_with_limit _ T env2 _ _ hlimit
  refine ⟨stim_period_always_response_window polls sp g, ⟨hresp, hout, ?_, hcnt⟩, rfl, rfl,
    ?_, ?_, ?_⟩
  · rw [hpoll]
  · rw [hre]
  · rw [hre]; exact hresp
  · rw [hre]; exact hout

/-- Witness of C17: the initial tables with REW set to 1 (REW_DUR = 50,
RWIN = 45000, MRT = 1), two quiet polls of the Stimulus Period, then a lick. -/
theorem scenario1_hit_witness :
    globals_scenario1.param_values tpidx_REW = 1 ∧
    globals_scenario1.param_values tpidx_MRT = 1 ∧
    (∀ i, globals_scenario1.results_values i = 0) ∧
    (srw_counted 0).my_rewards_this_trial = 0 ∧
    lickThresh < env_lick.analogRead ∧
    ((scenario1_stim [env_quiet, env_quiet] stim_period_init globals_scenario1).next_state
        = STATE_TYPE.RESPONSE_WINDOW ∧
     ((scenario1_poll 2 env_lick (srw_counted 0) [env_quiet, env_quiet] stim_period_init
          globals_scenario1).2.results_values tridx_RESPONSE = GO ∧
      (scenario1_poll 2 env_lick (srw_counted 0) [env_quiet, env_quiet] stim_period_init
          globals_scenario1).2.results_values tridx_OUTCOME = OUTCOME_HIT ∧
      (scenario1_poll 2 env_lick (srw_counted 0) [env_quiet, env_quiet] stim_period_init
          globals_scenario1).2.next_state = STATE_TYPE.REWARD ∧
      (scenario1_poll 2 env_lick (srw_counted 0) [env_quiet, env_quiet] stim_period_init
          globals_scenario1).1.my_rewards_this_trial = 1) ∧
     (scenario1_reward 2 env_lick (srw_counted 0) [env_quiet, env_quiet] stim_period_init
          globals_scenario1).2.next_state = STATE_TYPE.POST_REWARD_PAUSE ∧
     (scenario1_pause (getStates TIMER_PIN Globals.init).state_post_reward_pause 2 env_lick
          (srw_counted 0) [env_quiet, env_quiet] stim_period_init
          globals_scenario1).2.next_state = STATE_TYPE.RESPONSE_WINDOW ∧
     ((scenario1_repoll env_lick (getStates TIMER_PIN Globals.init).state_post_reward_pause 2
          env_lick (srw_counted 0) [env_quiet, env_quiet] stim_period_init
          globals_scenario1).2.next_state = STATE_TYPE.INTER_TRIAL_INTERVAL ∧
      (scenario1_repoll env_lick (getStates TIMER_PIN Globals.init).state_post_reward_pause 2
          env_lick (srw_counted 0) [env_quiet, env_quiet] stim_period_init
          globals_scenario1).2.results_values tridx_RESPONSE = GO ∧
      (scenario1_repoll env_lick (getStates TIMER_PIN Globals.init).state_post_reward_pause 2
          env_lick (srw_counted 0) [env_quiet, env_quiet] stim_period_init
          globals_scenario1).2.results_values tridx_OUTCOME = OUTCOME_HIT)) :=
  ⟨by decide, by decide, by decide, by decide, by decide,
    scenario1_hit 2 [env_quiet, env_quiet] env_lick env_lick stim_period_init (srw_counted 0)
      (getStates TIMER_PIN Globals.init).state_post_reward_pause globals_scenario1
      (by decide) (by decide) (by decide) (by decide) (by decide)⟩


/-- A run of Response Window polls none of which sees a lick, below the reward limit,
changes nothing. -/
theorem polls_quiet (T : Int) (envs : List Inputs) (self : StateResponseWindow) (g : Globals)
    (hm : (self.my_rewards_this_trial : Int) < g.param_values tpidx_MRT)
    (hq : ∀ env ∈ envs, env.analogRead ≤ lickThresh) :
    StateResponseWindow.polls T envs self g = (self, g) := by
  unfold StateResponseWindow.polls
  induction envs with
  | nil => rfl
  | cons env rest ih =>
    have hl : StateResponseWindow.set_licking_variables env = false := by
      have := hq env (List.mem_cons_self _ _)
      simpa [StateResponseWindow.set_licking_variables] using this
    rw [List.foldl_cons]
    have h1 : StateResponseWindow.loop T env self g = (self, g) := by
      unfold StateResponseWindow.loop
      exact loop_with_quiet _ T env self g hm hl
    simp only [h1]
    exact ih (fun e he => hq e (List.mem_cons_of_mem _ he))

/-- C18. End-to-end scenario 2. With REW = 2 (a NOGO trial), results at their
defaults (0, 0) and the reward count below MRT, any number of Response Window polls
that all see no lick change neither the results nor `next_state` (they change
nothing at all), and the `s_finish` that follows yields RESPONSE = NOGO,
OUTCOME = OUTCOME_CR and `next_state` = INTER_TRIAL_INTERVAL. -/
theorem scenario2_correct_rejection (T : Int) (envs : List Inputs)
    (self : StateResponseWindow) (g : Globals)
    (hrew : g.param_values tpidx_REW = 2) (hres : ∀ i, g.results_values i = 0)
    (hm : (self.my_rewards_this_trial : Int) < g.param_values tpidx_MRT)
    (hq : ∀ env ∈ envs, env.analogRead ≤ lickThresh) :
    StateResponseWindow.polls T envs self g = (self, g) ∧
    (StateResponseWindow.polls T envs self g).2.results_values = g.results_values ∧
    (StateResponseWindow.polls T envs self g).2.next_state = g.next_state ∧
    (StateResponseWindow.s_finish (StateResponseWindow.polls T envs self g).1
        (StateResponseWindow.polls T envs self g).2).2.results_values tridx_RESPONSE = NOGO ∧
    (StateResponseWindow.s_finish (StateResponseWindow.polls T envs self g).1
        (StateResponseWindow.polls T envs self g).2).2.results_values tridx_OUTCOME
      = OUTCOME_CR ∧
    (StateResponseWindow.s_finish (StateResponseWindow.polls T envs self g).1
        (StateResponseWindow.polls T envs self g).2).2.next_state
      = STATE_TYPE.INTER_TRIAL_INTERVAL := by
  rw [polls_quiet T envs self g hm hq]
  have hne := tridx_RESPONSE_ne_OUTCOME
  have hnogo : g.param_values tpidx_REW = NOGO := hrew
  refine ⟨rfl, rfl, rfl, ?_, ?_, ?_⟩ <;>
    simp [StateResponseWindow.s_finish, hres tridx_RESPONSE, hnogo, Function.update_noteq hne]

/-- Witness of C18: three quiet polls of a NOGO trial. -/
theorem scenario2_correct_rejection_witness :
    globals_scenario2.param_values tpidx_REW = 2 ∧
    (∀ i, globals_scenario2.results_values i = 0) ∧
    ((srw_counted 0).my_rewards_this_trial : Int) < globals_scenario2.param_values tpidx_MRT ∧
    (∀ env ∈ [env_quiet, env_quiet, env_quiet], env.analogRead ≤ lickThresh) ∧
    (StateResponseWindow.polls 2 [env_quiet, env_quiet, env_quiet] (srw_counted 0)
        globals_scenario2 = (srw_counted 0, globals_scenario2) ∧
     (StateResponseWindow.polls 2 [env_quiet, env_quiet, env_quiet] (srw_counted 0)
        globals_scenario2).2.results_values = globals_scenario2.results_values ∧
     (StateResponseWindow.polls 2 [env_quiet, env_quiet, env_quiet] (srw_counted 0)
        globals_scenario2).2.next_state = globals_scenario2.next_state ∧
     (StateResponseWindow.s_finish
        (StateResponseWindow.polls 2 [env_quiet, env_quiet, env_quiet] (srw_counted 0)
          globals_scenario2).1
        (StateResponseWindow.polls 2 [env_quiet, env_quiet, env_quiet] (srw_counted 0)
          globals_scenario2).2).2.results_values tridx_RESPONSE = NOGO ∧
     (StateResponseWindow.s_finish
        (StateResponseWindow.polls 2 [env_quiet, env_quiet, env_quiet] (srw_counted 0)
          globals_scenario2).1
        (StateResponseWindow.polls 2 [env_quiet, env_quiet, env_quiet] (srw_counted 0)
          globals_scenario2).2).2.results_values tridx_OUTCOME = OUTCOME_CR ∧
     (StateResponseWindow.s_finish
        (StateResponseWindow.polls 2 [env_quiet, env_quiet, env_quiet] (srw_counted 0)
          globals_scenario2).1
        (StateResponseWindow.polls 2 [env_quiet, env_quiet, env_quiet] (srw_counted 0)
          globals_scenario2).2).2.next_state = STATE_TYPE.INTER_TRIAL_INTERVAL) :=
  ⟨by decide, by decide, by decide, by decide,
    scenario2_correct_rejection 2 [env_quiet, env_quiet, env_quiet] (srw_counted 0)
      globals_scenario2 (by decide) (by decide) (by decide) (by decide)⟩

/-! ## The fake Response Window -/

/-- The draws below 3 among the 10000 values `random(0, 10000)` can return. -/
theorem draws_below_three :
    (Finset.range 10000).filter (fun d => ((d : Nat) : Int) < 3) = Finset.range 3 := by
  ext d
  simp only [Finset.mem_filter, Finset.mem_range]
  omega

/-- C19. Simulation independence. The lick value
`StateFakeResponseWindow::set_licking_variables` produces depends on the draw only:
two calls with the same draw, whatever the two detector readings (and times), give the
same lick value and the same Response Window step. It reports a lick exactly when the
draw is below 3, which is the case for 3 of the 10000 draws in [0, 10000). -/
theorem fake_window_independent (T : Int) (env1 env2 : Inputs) (self : StateResponseWindow)
    (g : Globals) (h : env1.random = env2.random) :
    StateFakeResponseWindow.set_licking_variables env1
      = StateFakeResponseWindow.set_licking_variables env2 ∧
    StateFakeResponseWindow.loop T env1 self g = StateFakeResponseWindow.loop T env2 self g ∧
    (StateFakeResponseWindow.set_licking_variables env1 = true ↔ env1.random < 3) ∧
    ((Finset.range 10000).filter (fun (d : Nat) =>
        StateFakeResponseWindow.set_licking_variables
          { millis := env1.millis, analogRead := env1.analogRead, random := (d : Int) }
          = true)).card = 3 := by
  have hs : StateFakeResponseWindow.set_licking_variables env1
      = StateFakeResponseWindow.set_licking_variables env2 := by
    simp [StateFakeResponseWindow.set_licking_variables, h]
  refine ⟨hs, ?_, ?_, ?_⟩
  · unfold StateFakeResponseWindow.loop StateResponseWindow.loop_with
    rw [hs]
  · simp [StateFakeResponseWindow.set_licking_variables]
  · simp only [StateFakeResponseWindow.set_licking_variables, decide_eq_true_eq]
    rw [draws_below_three]
    exact Finset.card_range 3

/-- Witness of C19: the draw 2 with the detector quiet and with the detector above
threshold. -/
theorem fake_window_independent_witness :
    env_draw_low.random = env_draw_low_lick.random ∧
    (StateFakeResponseWindow.set_licking_variables env_draw_low
        = StateFakeResponseWindow.set_licking_variables env_draw_low_lick ∧
     StateFakeResponseWindow.loop 2 env_draw_low (srw_counted 0) globals_scenario1
        = StateFakeResponseWindow.loop 2 env_draw_low_lick (srw_counted 0) globals_scenario1 ∧
     (StateFakeResponseWindow.set_licking_variables env_draw_low = true
        ↔ env_draw_low.random < 3) ∧
     ((Finset.range 10000).filter (fun (d : Nat) =>
        StateFakeResponseWindow.set_licking_variables
          { millis := env_draw_low.millis, analogRead := env_draw_low.analogRead,
            random := (d : Int) } = true)).card = 3) :=
  ⟨by decide, fake_window_independent 2 env_draw_low env_draw_low_lick (srw_counted 0)
    globals_scenario1 (by decide)⟩

/-! ## The reward output during the Stimulus Period -/

/-- The globals a call of `StateWaitToStartTrial::run` at `time` leaves when the flag
is set. -/
theorem wait_to_start_flag_set (time : Nat) (g : Globals) :
    StateWaitToStartTrial.run time true g
      = some (StandardState.state_trial_start, false,
          { g with
            effects := g.effects ++
              [Effect.serialPrint (Printed.number time),
               Effect.serialPrintln (Printed.text " TRL_RELEASED")] }) := by
  simp [StateWaitToStartTrial.run]

/-- C21. The claim is that a call of `StateWaitToStartTrial::run` with
`flag_start_trial` set returns the Trial Start state, prints one line
`<time> TRL_RELEASED` and clears the flag, so that one signal releases exactly one
trial. The call with the flag set does the three things: it is defined, returns
`state_trial_start`, its serial output is that one line, and it leaves the flag clear.
But the call that follows, made at any time with the flag and the globals as the first
call left them and no new signal, takes the path without a `return` and is undefined:
the code does not keep that call from releasing a second trial. -/
theorem wait_to_start_next_call_undefined (time time2 : Nat) (g : Globals) :
    (∃ g1 : Globals,
      StateWaitToStartTrial.run time true g
        = some (StandardState.state_trial_start, false, g1) ∧
      g1.effects = g.effects ++ emitted g.effects g1.effects ∧
      serial_lines (emitted g.effects g1.effects) = [TRL_RELEASED_line time] ∧
      StateWaitToStartTrial.run time2 false g1 = none) ∧
    (StateWaitToStartTrial.run time true g).bind
        (fun r => StateWaitToStartTrial.run time2 r.2.1 r.2.2) = none := by
  have h := wait_to_start_flag_set time g
  refine ⟨⟨_, h, ?_, ?_, ?_⟩, ?_⟩
  · exact (congrArg (fun l => g.effects ++ l) (emitted_append g.effects _)).symm
  · show serial_lines (emitted g.effects (g.effects ++ _)) = _
    rw [emitted_append]
    simp [serial_lines, serial_lines_from, TRL_RELEASED_line]
  · simp [StateWaitToStartTrial.run]
  · rw [h]
    simp [StateWaitToStartTrial.run]

/-! ## The parameter tables -/

/-- C22. The claim is that every parameter index below N_TRIAL_PARAMS has a short name,
in particular tpidx_INTERSTIM_LATENCY and tpidx_VOLUME. The table `param_abbrevs` has
names for the indices 0 to 10 only: its entries at tpidx_INTERSTIM_LATENCY (11) and
tpidx_VOLUME (12) are null pointers, while their values are 0 and their report flags
clear. -/
theorem param_abbrevs_missing_names :
    param_abbrevs tpidx_INTERSTIM_LATENCY = none ∧
    param_abbrevs tpidx_VOLUME = none ∧
    (∀ i : Fin N_TRIAL_PARAMS, (param_abbrevs i).isSome = true ↔ i.val < 11) ∧
    Globals.init.param_values tpidx_INTERSTIM_LATENCY = 0 ∧
    Globals.init.param_values tpidx_VOLUME = 0 ∧
    Globals.init.param_report_ET tpidx_INTERSTIM_LATENCY = false ∧
    Globals.init.param_report_ET tpidx_VOLUME = false := by
  decide


/-! ## The bound on the reward count -/

/-- A poll leaves the parameter table as it was. -/
theorem loop_with_param_values (hook : Inputs → Bool) (T : Int) (env : Inputs)
    (self : StateResponseWindow) (g : Globals) :
    (StateResponseWindow.loop_with hook T env self g).2.param_values = g.param_values := by
  by_cases hm : (self.my_rewards_this_trial : Int) < g.param_values tpidx_MRT
  · by_cases hl : hook env = true
    · by_cases hr : g.param_values tpidx_REW = GO
      · rw [loop_with_hit hook T env self g hm hl hr]
      · by_cases ht : g.param_values tpidx_TERMINATE_ON_ERR = T
        · rw [loop_with_error_stay hook T env self g hm hl hr ht]
        · rw [loop_with_error_stop hook T env self g hm hl hr ht]
    · rw [loop_with_quiet hook T env self g hm (by simpa using hl)]
  · rw [loop_with_limit hook T env self g (not_lt.mp hm)]

/-- A poll keeps the reward count at or below `MRT`. -/
theorem loop_with_count_le (hook : Inputs → Bool) (T : Int) (env : Inputs)
    (self : StateResponseWindow) (g : Globals)
    (hinv : (self.my_rewards_this_trial : Int) ≤ g.param_values tpidx_MRT) :
    ((StateResponseWindow.loop_with hook T env self g).1.my_rewards_this_trial : Int)
      ≤ g.param_values tpidx_MRT := by
  by_cases hm : (self.my_rewards_this_trial : Int) < g.param_values tpidx_MRT
  · by_cases hl : hook env = true
    · by_cases hr : g.param_values tpidx_REW = GO
      · rw [loop_with_hit hook T env self g hm hl hr]
        show (((self.my_rewards_this_trial + 1) % UINT_MODULUS : Nat) : Int) ≤ _
        have h1 : (self.my_rewards_this_trial + 1) % UINT_MODULUS
            ≤ self.my_rewards_this_trial + 1 := Nat.mod_le _ _
        omega
      · by_cases ht : g.param_values tpidx_TERMINATE_ON_ERR = T
        · rw [loop_with_error_stay hook T env self g hm hl hr ht]
          exact hinv
        · rw [loop_with_error_stop hook T env self g hm hl hr ht]
          exact hinv
    · rw [loop_with_quiet hook T env self g hm (by simpa using hl)]
      exact hinv
  · rw [loop_with_limit hook T env self g (not_lt.mp hm)]
    exact hinv

/-- With `MRT` within the range of the count, a poll raises the count by one exactly
when, entered with `next_state` at RESPONSE_WINDOW, it leaves `next_state` at REWARD. -/
theorem loop_with_count_step (hook : Inputs → Bool) (T : Int) (env : Inputs)
    (self : StateResponseWindow) (g : Globals)
    (hfit : g.param_values tpidx_MRT < (UINT_MODULUS : Int)) :
    ((StateResponseWindow.loop_with hook T env self g).1.my_rewards_this_trial : Int)
      = (self.my_rewards_this_trial : Int) +
        (if (StateResponseWindow.loop_with hook T env self
              { g with next_state := STATE_TYPE.RESPONSE_WINDOW }).2.next_state
            = STATE_TYPE.REWARD then 1 else 0) := by
  by_cases hm : (self.my_rewards_this_trial : Int) < g.param_values tpidx_MRT
  · by_cases hl : hook env = true
    · by_cases hr : g.param_values tpidx_REW = GO
      · rw [loop_with_hit hook T env self g hm hl hr,
          loop_with_hit hook T env self { g with next_state := STATE_TYPE.RESPONSE_WINDOW }
            hm hl hr]
        show (((self.my_rewards_this_trial + 1) % UINT_MODULUS : Nat) : Int)
          = (self.my_rewards_this_trial : Int) + (if STATE_TYPE.REWARD = STATE_TYPE.REWARD
              then 1 else 0)
        have h1 : (self.my_rewards_this_trial + 1) % UINT_MODULUS
            = self.my_rewards_this_trial + 1 := by
          apply Nat.mod_eq_of_lt
          unfold UINT_MODULUS at *
          omega
        rw [h1]
        simp
      · by_cases ht : g.param_values tpidx_TERMINATE_ON_ERR = T
        · rw [loop_with_error_stay hook T env self g hm hl hr ht,
            loop_with_error_stay hook T env self
              { g with next_state := STATE_TYPE.RESPONSE_WINDOW } hm hl hr ht]
          simp
        · rw [loop_with_error_stop hook T env self g hm hl hr ht,
            loop_with_error_stop hook T env self
              { g with next_state := STATE_TYPE.RESPONSE_WINDOW } hm hl hr ht]
          simp
    · rw [loop_with_quiet hook T env self g hm (by simpa using hl),
        loop_with_quiet hook T env self { g with next_state := STATE_TYPE.RESPONSE_WINDOW }
          hm (by simpa using hl)]
      simp
  · rw [loop_with_limit hook T env self g (not_lt.mp hm),
      loop_with_limit hook T env self { g with next_state := STATE_TYPE.RESPONSE_WINDOW }
        (not_lt.mp hm)]
    simp

/-- One call of a sequence: `MRT` stays, the count stays at or below it, and the count
goes up by one exactly when the call requests the REWARD transition. -/
theorem window_call_step (T : Int) (c : WindowCall) (self : StateResponseWindow)
    (g : Globals) (hfit : g.param_values tpidx_MRT < (UINT_MODULUS : Int))
    (hinv : (self.my_rewards_this_trial : Int) ≤ g.param_values tpidx_MRT) :
    (c.run T (self, g)).2.param_values tpidx_MRT = g.param_values tpidx_MRT ∧
    ((c.run T (self, g)).1.my_rewards_this_trial : Int) ≤ g.param_values tpidx_MRT ∧
    ((c.run T (self, g)).1.my_rewards_this_trial : Int)
      = (self.my_rewards_this_trial : Int) +
        (if c.requests_reward T (self, g) = true then 1 else 0) := by
  cases c with
  | poll env =>
    refine ⟨?_, ?_, ?_⟩
    · exact congrFun (loop_with_param_values _ T env self g) _
    · exact loop_with_count_le _ T env self g hinv
    · have h := loop_with_count_step StateResponseWindow.set_licking_variables T env self g
        hfit
      simpa [WindowCall.run, WindowCall.requests_reward, StateResponseWindow.loop] using h
  | fake_poll env =>
    refine ⟨?_, ?_, ?_⟩
    · exact congrFun (loop_with_param_values _ T env self g) _
    · exact loop_with_count_le _ T env self g hinv
    · have h := loop_with_count_step StateFakeResponseWindow.set_licking_variables T env self g
        hfit
      simpa [WindowCall.run, WindowCall.requests_reward, StateFakeResponseWindow.loop] using h
  | finish =>
    have hreq : WindowCall.finish.requests_reward T (self, g) = false := by
      simp only [WindowCall.requests_reward, WindowCall.run, decide_eq_false_iff_not]
      by_cases h0 : g.results_values tridx_RESPONSE = 0
      · simp [StateResponseWindow.s_finish, h0]
      · simp [StateResponseWindow.s_finish, h0]
    have hself : (WindowCall.finish.run T (self, g)).1 = self := by
      simp only [WindowCall.run, StateResponseWindow.s_finish]
      split <;> rfl
    refine ⟨?_, ?_, ?_⟩
    · simp only [WindowCall.run, StateResponseWindow.s_finish]
      split_ifs <;> rfl
    · rw [hself]
      exact hinv
    · rw [hself, hreq]
      simp
  | reward =>
    refine ⟨rfl, hinv, ?_⟩
    simp [WindowCall.run, WindowCall.requests_reward, state_reward]

/-- Along a sequence of calls the requests for REWARD and the count together stay at
or below `MRT`. -/
theorem reward_requests_add_count (T : Int) (calls : List WindowCall) :
    ∀ (self : StateResponseWindow) (g : Globals),
      g.param_values tpidx_MRT < (UINT_MODULUS : Int) →
      (self.my_rewards_this_trial : Int) ≤ g.param_values tpidx_MRT →
      (reward_requests T calls (self, g) : Int) + (self.my_rewards_this_trial : Int)
        ≤ g.param_values tpidx_MRT := by
  induction calls with
  | nil =>
    intro self g _ hinv
    simpa [reward_requests] using hinv
  | cons c rest ih =>
    intro self g hfit hinv
    obtain ⟨hp, hle, hstep⟩ := window_call_step T c self g hfit hinv
    have h := ih (c.run T (self, g)).1 (c.run T (self, g)).2 (by rw [hp]; exact hfit)
      (by rw [hp]; exact hle)
    rw [hp] at h
    simp only [Prod.mk.eta] at h
    simp only [reward_requests]
    by_cases hreq : c.requests_reward T (self, g) = true
    · simp only [hreq, if_true] at hstep ⊢
      push_cast
      omega
    · simp only [hreq] at hstep ⊢
      simp only [Bool.false_eq_true, if_false] at hstep ⊢
      push_cast
      omega

/-- With `MRT` at 65536 the count never reaches it: every poll that sees a lick on a
rewarded trial requests the REWARD transition. -/
theorem reward_requests_unbounded (T : Int) (env : Inputs) (hl : lickThresh < env.analogRead)
    (n : Nat) :
    ∀ (self : StateResponseWindow) (g : Globals),
      g.param_values tpidx_REW = GO → g.param_values tpidx_MRT = 65536 →
      self.my_rewards_this_trial < UINT_MODULUS →
      reward_requests T (List.replicate n (WindowCall.poll env)) (self, g) = n := by
  induction n with
  | zero =>
    intro self g _ _ _
    rfl
  | succ k ih =>
    intro self g hr hM hc
    have hm : ∀ g2 : Globals, g2.param_values = g.param_values →
        (self.my_rewards_this_trial : Int) < g2.param_values tpidx_MRT := by
      intro g2 h2
      rw [h2, hM]
      unfold UINT_MODULUS at hc
      omega
    have hl2 := (set_licking_variables_eq_true env).mpr hl
    have hrun : (WindowCall.poll env).run T (self, g)
        = ({ self with
              my_rewards_this_trial := (self.my_rewards_this_trial + 1) % UINT_MODULUS },
           { g with
              next_state := STATE_TYPE.REWARD
              results_values :=
                Function.update (record_response g) tridx_OUTCOME OUTCOME_HIT }) := by
      simp only [WindowCall.run, StateResponseWindow.loop]
      exact loop_with_hit _ T env self g (hm g rfl) hl2 hr
    have hreq : (WindowCall.poll env).requests_reward T (self, g) = true := by
      have e := loop_with_hit StateResponseWindow.set_licking_variables T env self
        { g with next_state := STATE_TYPE.RESPONSE_WINDOW } (hm _ rfl) hl2 hr
      simp [WindowCall.requests_reward, WindowCall.run, StateResponseWindow.loop, e]
    have hpos : 0 < UINT_MODULUS := by decide
    have h := ih
      { self with my_rewards_this_trial := (self.my_rewards_this_trial + 1) % UINT_MODULUS }
      { g with
        next_state := STATE_TYPE.REWARD
        results_values := Function.update (record_response g) tridx_OUTCOME OUTCOME_HIT }
      hr hM (Nat.mod_lt _ hpos)
    rw [List.replicate_succ]
    simp only [reward_requests, hreq, if_true, hrun]
    rw [h]
    omega

/-- C23, the claim as stated fails for an `MRT` beyond the range of the count: with
`MRT` = 65536 on a rewarded trial, 65537 polls that each see a lick, starting from
count 0, request the REWARD transition 65537 times, more than `MRT`. -/
theorem reward_requests_exceed_large_mrt :
    0 ≤ globals_large_mrt.param_values tpidx_MRT ∧
    (srw_counted 0).my_rewards_this_trial = 0 ∧
    reward_requests 2 (List.replicate 65537 (WindowCall.poll env_lick))
      (srw_counted 0, globals_large_mrt) = 65537 ∧
    ((65537 : Nat) : Int) > globals_large_mrt.param_values tpidx_MRT :=
  ⟨by decide, by decide,
    reward_requests_unbounded 2 env_lick (by decide) 65537 (srw_counted 0) globals_large_mrt
      (by decide) (by decide) (by decide),
    by decide⟩

/-- C23, amended. For a fixed `MRT` parameter that is not negative: if
`my_rewards_this_trial` is at most `MRT` before a call of `StateResponseWindow::loop`,
it is at most `MRT` after it, for every lick input and every other parameter value,
and the call leaves `MRT` as it was. If moreover `MRT` is at most 65535, the largest
value of the `unsigned int` count, then over every sequence of Response Window polls,
`s_finish` calls and `state_reward` calls that starts from count 0 the number of REWARD
transitions requested is at most `MRT`. -/
theorem reward_count_bound (T : Int) (env : Inputs) (calls : List WindowCall)
    (self : StateResponseWindow) (g : Globals) (h0 : 0 ≤ g.param_values tpidx_MRT) :
    ((self.my_rewards_this_trial : Int) ≤ g.param_values tpidx_MRT →
      ((StateResponseWindow.loop T env self g).1.my_rewards_this_trial : Int)
        ≤ (StateResponseWindow.loop T env self g).2.param_values tpidx_MRT ∧
      (StateResponseWindow.loop T env self g).2.param_values tpidx_MRT
        = g.param_values tpidx_MRT) ∧
    (self.my_rewards_this_trial = 0 → g.param_values tpidx_MRT < (UINT_MODULUS : Int) →
      (reward_requests T calls (self, g) : Int) ≤ g.param_values tpidx_MRT) := by
  constructor
  · intro hinv
    have hp : (StateResponseWindow.loop T env self g).2.param_values tpidx_MRT
        = g.param_values tpidx_MRT := congrFun (loop_with_param_values _ T env self g) _
    refine ⟨?_, hp⟩
    rw [hp]
    exact loop_with_count_le _ T env self g hinv
  · intro hstart hfit
    have h := reward_requests_add_count T calls self g hfit (by rw [hstart]; exact h0)
    rw [hstart] at h
    simpa using h

/-- Witness of C23 amended: a rewarded trial with `MRT` = 2; a lick, the reward, a
second lick, the reward, a third lick and the finish hook request REWARD twice. -/
theorem reward_count_bound_witness :
    0 ≤ globals_after_hit.param_values tpidx_MRT ∧
    ((srw_counted 0).my_rewards_this_trial : Int) ≤ globals_after_hit.param_values tpidx_MRT ∧
    (((StateResponseWindow.loop 2 env_lick (srw_counted 0)
          globals_after_hit).1.my_rewards_this_trial : Int)
        ≤ (StateResponseWindow.loop 2 env_lick (srw_counted 0)
            globals_after_hit).2.param_values tpidx_MRT ∧
      (StateResponseWindow.loop 2 env_lick (srw_counted 0)
          globals_after_hit).2.param_values tpidx_MRT
        = globals_after_hit.param_values tpidx_MRT) ∧
    (srw_counted 0).my_rewards_this_trial = 0 ∧
    globals_after_hit.param_values tpidx_MRT < (UINT_MODULUS : Int) ∧
    (reward_requests 2
        [WindowCall.poll env_lick, WindowCall.reward, WindowCall.poll env_lick,
         WindowCall.reward, WindowCall.poll env_lick, WindowCall.finish]
        (srw_counted 0, globals_after_hit) : Int)
      ≤ globals_after_hit.param_values tpidx_MRT :=
  ⟨by decide, by decide,
    (reward_count_bound 2 env_lick
      [WindowCall.poll env_lick, WindowCall.reward, WindowCall.poll env_lick,
       WindowCall.reward, WindowCall.poll env_lick, WindowCall.finish]
      (srw_counted 0) globals_after_hit (by decide)).1 (by decide),
    by decide, by decide,
    (reward_count_bound 2 env_lick
      [WindowCall.poll env_lick, WindowCall.reward, WindowCall.poll env_lick,
       WindowCall.reward, WindowCall.poll env_lick, WindowCall.finish]
      (srw_counted 0) globals_after_hit (by decide)).2 (by decide) (by decide)⟩

end MultiSens
